import Mathlib

/-!
# SectorServer: the handle registry of the Thrift gateway

A shallow embedding of `DfsServiceHandler` from `src/cpp/server/SectorServer.cpp`.

* `std::map<int64_t, V>` is an association list `List (Int × V)` with the
  operations the handler uses (`find`, `operator[]` assignment, `erase`, update
  through an iterator).
* `int64_t` and `int` values are `Int`; the counters are only ever incremented
  from a wall-clock seed, so no wrap-around is modelled.
* Pointers to native objects (`Sector*`, `SectorFile*`) are natural numbers chosen
  by the environment.
* The native library is an environment: every handler method receives the
  statuses the native calls it may make would return, and reports the native calls
  it actually made, in order, together with the value each one returned.
* Methods run one at a time; the `pthread` mutex has no counterpart here.
-/

namespace SectorServer

/-! ## `std::map<int64_t, V>` -/

/-- `m.find(k)`: the value stored under `k`, `none` standing for `m.end()`. -/
def mapFind {V : Type} : List (Int × V) → Int → Option V
  | [], _ => none
  | (k', v) :: m, k => if k = k' then some v else mapFind m k

/-- `m[k] = v`: replaces the value under `k`, or inserts a new entry in key order. -/
def mapAssign {V : Type} : List (Int × V) → Int → V → List (Int × V)
  | [], k, v => [(k, v)]
  | (k', v') :: m, k, v =>
    if k < k' then (k, v) :: (k', v') :: m
    else if k = k' then (k, v) :: m
    else (k', v') :: mapAssign m k v

/-- `m.erase(k)`: removes the entry stored under `k`, if any. -/
def mapErase {V : Type} (m : List (Int × V)) (k : Int) : List (Int × V) :=
  m.filter (fun e => decide (e.1 ≠ k))

/-- In-place update through an iterator: `m.find(k)->second = g (m.find(k)->second)`. -/
def mapModify {V : Type} (m : List (Int × V)) (k : Int) (g : V → V) : List (Int × V) :=
  m.map (fun e => if e.1 = k then (e.1, g e.2) else e)

/-! ## Data model -/

/-- The Thrift struct `ClientHandle` (field `id`). -/
structure ClientHandle where
  id : Int
deriving DecidableEq, Repr

/-- The Thrift struct `DfsHandle` (field `id`). -/
structure DfsHandle where
  id : Int
deriving DecidableEq, Repr

/-- The Thrift exception `DfsServiceIOException` (field `message`). -/
structure DfsServiceIOException where
  message : String
deriving DecidableEq, Repr

/-- The Thrift struct `FileStatus`. -/
structure FileStatus where
  length : Int
  isdir : Bool
  modification_time : Int
  path : String
deriving DecidableEq, Repr

/-- The native metadata object `SNode`, restricted to the fields the handler reads. -/
structure SNode where
  m_llSize : Int
  m_bIsDir : Bool
  m_llTimeStamp : Int
  m_strName : String
deriving DecidableEq, Repr

/-- The struct `clientStruct`: a native client and the file handles opened through it. -/
structure clientStruct where
  client : Nat
  dfsHandleMap : List (Int × Nat)
deriving DecidableEq, Repr

/-- The fields of `DfsServiceHandler`. -/
structure DfsServiceHandler where
  clientHandleMap : List (Int × clientStruct)
  clientId : Int
  dfsId : Int
deriving DecidableEq, Repr

/-- A call into the native client library, with the value it returned (last field). -/
inductive NativeCall where
  | sectorInit (client : Nat) (ip : String) (port : Int) (status : Int)
  | sectorLogin (client : Nat) (user password : String) (status : Int)
  | sectorLogout (client : Nat) (status : Int)
  | sectorClose (client : Nat) (status : Int)
  | sectorList (client : Nat) (path : String) (status : Int)
  | sectorStat (client : Nat) (path : String) (status : Int)
  | sectorMkdir (client : Nat) (path : String) (status : Int)
  | sectorMove (client : Nat) (oldpath newpath : String) (status : Int)
  | sectorRemove (client : Nat) (path : String) (status : Int)
  | staticStat (path : String) (status : Int)
  | fileOpen (f : Nat) (filename : String) (mode : Int) (status : Int)
  | fileClose (f : Nat) (status : Int)
  | fileEof (f : Nat) (result : Bool)
  | fileSeekg (f : Nat) (offset : Int) (status : Int)
  | fileRead (f : Nat) (len : Int) (status : Int)
  | fileSeekp (f : Nat) (offset : Int) (status : Int)
  | fileWrite (f : Nat) (buf : String) (len : Int) (status : Int)
  | fileDownload (f : Nat) (dest : String) (status : Int)
  | fileUpload (f : Nat) (src : String) (status : Int)
deriving DecidableEq, Repr

/-- What a handler method leaves behind: the value returned to the caller, the
handler afterwards, and the native calls made, in order. -/
structure Outcome (α : Type) where
  ret : α
  state : DfsServiceHandler
  calls : List NativeCall

/-- The C library's `isspace` in the "C" locale. -/
def isspace (c : Char) : Bool :=
  c.toNat = 32 || (9 ≤ c.toNat && c.toNat ≤ 13)

/-- The digit loop of `atoi`: stops at the first character that is not a digit. -/
def atoiDigits : List Char → Int → Int
  | [], acc => acc
  | c :: cs, acc =>
    if 48 ≤ c.toNat ∧ c.toNat ≤ 57 then atoiDigits cs (acc * 10 + ((c.toNat : Int) - 48))
    else acc

/-- The C library's `strtol( str, NULL, 10 )` with a 64-bit `long`: leading white space,
an optional sign, then decimal digits; a value outside the range of `long` is replaced
by the nearest bound. -/
def strtol (str : String) : Int :=
  let value :=
    match str.toList.dropWhile isspace with
    | '-' :: cs => - atoiDigits cs 0
    | '+' :: cs => atoiDigits cs 0
    | cs => atoiDigits cs 0
  max (-9223372036854775808) (min 9223372036854775807 value)

/-- The conversion of a `long` to a 32-bit `int`: the low 32 bits, read as a signed
number. -/
def longToInt (n : Int) : Int :=
  (n + 2147483648) % 4294967296 - 2147483648

/-- The C library's `atoi`, which is `(int) strtol( str, NULL, 10 )`. -/
def atoi (str : String) : Int :=
  longToInt (strtol str)

/-! ## The handler -/

/-- The constructor: both counters start at `t.tv_sec`, the maps are empty. -/
def DfsServiceHandler.new (tv_sec : Int) : DfsServiceHandler :=
  { clientHandleMap := [], clientId := tv_sec, dfsId := tv_sec }

/-- The method `init`. `tokens` is the vector filled by `Tokenize( uri, tokens, "/:" )`
(the helper comes from `stringutil.h`); reading `tokens[0..2]` of a shorter vector is
undefined, which is `none`. `client` is the pointer `new Sector()` returned and
`status` what `client->init` returns. -/
def DfsServiceHandler.init (s : DfsServiceHandler) (tokens : List String) (client : Nat)
    (status : Int) : Option (Outcome ClientHandle) :=
  match tokens with
  | _dfs :: ip :: port :: _ =>
    let calls := [NativeCall.sectorInit client ip (atoi port) status]
    if status < 0 then
      some { ret := { id := status },
             state := { s with clientId := s.clientId + 1 },
             calls := calls }
    else
      some { ret := { id := s.clientId },
             state := { s with
               clientHandleMap :=
                 mapAssign s.clientHandleMap s.clientId { client := client, dfsHandleMap := [] },
               clientId := s.clientId + 1 },
             calls := calls }
  | _ => none

/-- The method `login`; `status` is what `client->login` returns. -/
def DfsServiceHandler.login (s : DfsServiceHandler) (clientHandle : ClientHandle)
    (user password : String) (status : Int) : Outcome Bool :=
  match mapFind s.clientHandleMap clientHandle.id with
  | none => { ret := false, state := s, calls := [] }
  | some cs =>
    let calls := [NativeCall.sectorLogin cs.client user password status]
    if status < 0 then { ret := false, state := s, calls := calls }
    else { ret := true, state := s, calls := calls }

/-- The method `logout`; `status` is what `client->logout` returns. -/
def DfsServiceHandler.logout (s : DfsServiceHandler) (clientHandle : ClientHandle)
    (status : Int) : Outcome Bool :=
  match mapFind s.clientHandleMap clientHandle.id with
  | none => { ret := false, state := s, calls := [] }
  | some cs =>
    let calls := [NativeCall.sectorLogout cs.client status]
    if status < 0 then { ret := false, state := s, calls := calls }
    else { ret := true, state := s, calls := calls }

/-- The method `closeClient`; `status` is what `client->close` returns and
`fileStatus k` what the native close of the file registered under id `k` returns. -/
def DfsServiceHandler.closeClient (s : DfsServiceHandler) (clientHandle : ClientHandle)
    (status : Int) (fileStatus : Int → Int) : Outcome Bool :=
  match mapFind s.clientHandleMap clientHandle.id with
  | none => { ret := false, state := s, calls := [] }
  | some cs =>
    let calls := NativeCall.sectorClose cs.client status ::
      cs.dfsHandleMap.map (fun e => NativeCall.fileClose e.2 (fileStatus e.1))
    let s' := { s with clientHandleMap := mapErase s.clientHandleMap clientHandle.id }
    if status < 0 then { ret := false, state := s', calls := calls }
    else { ret := true, state := s', calls := calls }

/-- The method `closeDfs`. -/
def DfsServiceHandler.closeDfs (s : DfsServiceHandler) : Outcome Bool :=
  { ret := true, state := s, calls := [] }

/-- The method `open`; `f` is the pointer `new SectorFile()` returned and `status`
what `f->open` returns. -/
def DfsServiceHandler.open (s : DfsServiceHandler) (clientHandle : ClientHandle)
    (filename : String) (mode : Int) (f : Nat) (status : Int) : Outcome DfsHandle :=
  match mapFind s.clientHandleMap clientHandle.id with
  | none => { ret := { id := -1 }, state := s, calls := [] }
  | some _ =>
    let calls := [NativeCall.fileOpen f filename mode status]
    if status < 0 then
      { ret := { id := status },
        state := { s with dfsId := s.dfsId + 1 },
        calls := calls }
    else
      { ret := { id := s.dfsId },
        state := { s with
          clientHandleMap := mapModify s.clientHandleMap clientHandle.id
            (fun cs => { cs with dfsHandleMap := mapAssign cs.dfsHandleMap s.dfsId f }),
          dfsId := s.dfsId + 1 },
        calls := calls }

/-- The method `close`; `status` is what `f->close` returns. -/
def DfsServiceHandler.close (s : DfsServiceHandler) (clientHandle : ClientHandle)
    (dfsHandle : DfsHandle) (status : Int) : Outcome Bool :=
  match mapFind s.clientHandleMap clientHandle.id with
  | none => { ret := false, state := s, calls := [] }
  | some cs =>
    match mapFind cs.dfsHandleMap dfsHandle.id with
    | none => { ret := false, state := s, calls := [] }
    | some f =>
      let calls := [NativeCall.fileClose f status]
      let s' := { s with
        clientHandleMap := mapModify s.clientHandleMap clientHandle.id
          (fun cs => { cs with dfsHandleMap := mapErase cs.dfsHandleMap dfsHandle.id }) }
      if status < 0 then { ret := false, state := s', calls := calls }
      else { ret := true, state := s', calls := calls }

/-- The method `populateFileStatus`. -/
def DfsServiceHandler.populateFileStatus (attr : SNode) : FileStatus :=
  { length := attr.m_llSize,
    isdir := attr.m_bIsDir,
    modification_time := attr.m_llTimeStamp,
    path := attr.m_strName }

/-- The method `listFiles`; `_return` is the vector the caller passes in, `status` and
`filelist` are what `client->list` returns. -/
def DfsServiceHandler.listFiles (s : DfsServiceHandler) (_return : List FileStatus)
    (clientHandle : ClientHandle) (path : String) (status : Int) (filelist : List SNode) :
    Outcome (Except DfsServiceIOException (List FileStatus)) :=
  match mapFind s.clientHandleMap clientHandle.id with
  | none => { ret := .ok _return, state := s, calls := [] }
  | some cs =>
    let calls := [NativeCall.sectorList cs.client path status]
    if status < 0 then
      { ret := .error { message := "list for " ++ path ++ " failed, return code=" ++ toString status },
        state := s, calls := calls }
    else
      { ret := .ok (_return ++ filelist.map DfsServiceHandler.populateFileStatus),
        state := s, calls := calls }

/-- The method `stat`; `_return` is the record the caller passes in, `status` and
`attr` are what `client->stat` returns. -/
def DfsServiceHandler.stat (s : DfsServiceHandler) (_return : FileStatus)
    (clientHandle : ClientHandle) (path : String) (status : Int) (attr : SNode) :
    Outcome (Except DfsServiceIOException FileStatus) :=
  match mapFind s.clientHandleMap clientHandle.id with
  | none => { ret := .ok _return, state := s, calls := [] }
  | some cs =>
    let calls := [NativeCall.sectorStat cs.client path status]
    if status < 0 then
      { ret := .error { message := "Failed to stat " ++ path ++ ", return code=" ++ toString status },
        state := s, calls := calls }
    else
      { ret := .ok (DfsServiceHandler.populateFileStatus attr), state := s, calls := calls }

/-- The method `mkdir`; `status` is what `client->mkdir` returns. -/
def DfsServiceHandler.mkdir (s : DfsServiceHandler) (clientHandle : ClientHandle)
    (path : String) (status : Int) : Outcome (Except DfsServiceIOException Bool) :=
  match mapFind s.clientHandleMap clientHandle.id with
  | none => { ret := .ok false, state := s, calls := [] }
  | some cs =>
    let calls := [NativeCall.sectorMkdir cs.client path status]
    if status < 0 then
      { ret := .error { message := "Failed to create " ++ path ++ ", return code=" ++ toString status },
        state := s, calls := calls }
    else { ret := .ok true, state := s, calls := calls }

/-- The method `move`; `status` is what `client->move` returns. -/
def DfsServiceHandler.move (s : DfsServiceHandler) (clientHandle : ClientHandle)
    (oldpath newpath : String) (status : Int) : Outcome (Except DfsServiceIOException Bool) :=
  match mapFind s.clientHandleMap clientHandle.id with
  | none => { ret := .ok false, state := s, calls := [] }
  | some cs =>
    let calls := [NativeCall.sectorMove cs.client oldpath newpath status]
    if status < 0 then
      { ret := .error { message := "Failed to move " ++ oldpath ++ " to " ++ newpath ++
          ", return code=" ++ toString status },
        state := s, calls := calls }
    else { ret := .ok true, state := s, calls := calls }

/-- The method `remove`; `status` is what `client->remove` returns. -/
def DfsServiceHandler.remove (s : DfsServiceHandler) (clientHandle : ClientHandle)
    (path : String) (_recursive : Bool) (status : Int) :
    Outcome (Except DfsServiceIOException Bool) :=
  match mapFind s.clientHandleMap clientHandle.id with
  | none => { ret := .ok false, state := s, calls := [] }
  | some cs =>
    let calls := [NativeCall.sectorRemove cs.client path status]
    if status < 0 then
      { ret := .error { message := "Failed to remove " ++ path ++ ", return code=" ++ toString status },
        state := s, calls := calls }
    else { ret := .ok true, state := s, calls := calls }

/-- The character `'\0'`. -/
def NUL : Char := Char.ofNat 0

/-- The conversion `string( buf )` of a `char*`: the characters before the first `'\0'`. -/
def cString (buf : List Char) : String :=
  String.mk (buf.takeWhile (fun c => decide (c ≠ NUL)))

/-- The method `read`. `eof` is what `f->eof()` returns, `seekStatus` what `f->seekg`
returns, `readStatus` what `f->read` returns and `buf i` the character at `buf[i]` once
the native read has returned. `none` stands for the executions that hand the caller no
result: `new char[len]` with a negative `len`, which fails inside the allocator, and
the store `buf[status]` outside the `len` characters allocated, which is undefined. -/
def DfsServiceHandler.read (s : DfsServiceHandler) (clientHandle : ClientHandle)
    (dfsHandle : DfsHandle) (offset len : Int) (eof : Bool) (seekStatus readStatus : Int)
    (buf : Nat → Char) : Option (Outcome (Except DfsServiceIOException String)) :=
  match mapFind s.clientHandleMap clientHandle.id with
  | none => some { ret := .ok (String.mk [NUL]), state := s, calls := [] }
  | some cs =>
    match mapFind cs.dfsHandleMap dfsHandle.id with
    | none => some { ret := .ok "", state := s, calls := [] }
    | some f =>
      if eof then some { ret := .ok "", state := s, calls := [NativeCall.fileEof f true] }
      else
        let seek := if 0 ≤ offset then [NativeCall.fileSeekg f offset seekStatus] else []
        if 0 ≤ offset ∧ seekStatus < 0 then
          some { ret := .error { message := "Failed to seek to offset " ++ toString offset ++
                   ", return code=" ++ toString seekStatus },
                 state := s, calls := NativeCall.fileEof f false :: seek }
        else if len < 0 then none
        else
          let calls := NativeCall.fileEof f false :: (seek ++ [NativeCall.fileRead f len readStatus])
          if readStatus < 0 then some { ret := .ok "", state := s, calls := calls }
          else if readStatus < len then
            some { ret := .ok (cString (((List.range len.toNat).map buf).set readStatus.toNat NUL)),
                   state := s, calls := calls }
          else none

/-- The method `write`; `seekStatus` is what `f->seekp` returns and `writeStatus` what
`f->write` returns. -/
def DfsServiceHandler.write (s : DfsServiceHandler) (clientHandle : ClientHandle)
    (dfsHandle : DfsHandle) (buf : String) (offset len : Int) (seekStatus writeStatus : Int) :
    Outcome (Except DfsServiceIOException Bool) :=
  match mapFind s.clientHandleMap clientHandle.id with
  | none => { ret := .ok false, state := s, calls := [] }
  | some cs =>
    match mapFind cs.dfsHandleMap dfsHandle.id with
    | none => { ret := .ok false, state := s, calls := [] }
    | some f =>
      let seek := if 0 ≤ offset then [NativeCall.fileSeekp f offset seekStatus] else []
      if 0 ≤ offset ∧ seekStatus < 0 then
        { ret := .error { message := "Failed to seek to offset " ++ toString offset ++
            ", return code=" ++ toString seekStatus },
          state := s, calls := seek }
      else
        let calls := seek ++ [NativeCall.fileWrite f buf len writeStatus]
        if writeStatus < 0 then
          { ret := .error { message := "Write failed, return code=" ++ toString writeStatus },
            state := s, calls := calls }
        else { ret := .ok true, state := s, calls := calls }

/-- The method `copyToLocalFile`. `READ` is the constant `SF_MODE::READ` of the native
library, `f` identifies the local `SectorFile`, and the three statuses are what
`Sector::stat`, `f.open` and `f.download` return; the status of the final `f.close()`,
which the method discards, is `closeStatus`. -/
def DfsServiceHandler.copyToLocalFile (s : DfsServiceHandler) (READ : Int) (src dest : String)
    (f : Nat) (statStatus openStatus downloadStatus closeStatus : Int) :
    Outcome (Except DfsServiceIOException Bool) :=
  let c1 := [NativeCall.staticStat src statStatus]
  if statStatus < 0 then
    { ret := .error { message := "Failed to stat source file " ++ src ++ ", return code=" ++
                toString statStatus },
      state := s, calls := c1 }
  else
    let c2 := c1 ++ [NativeCall.fileOpen f src READ openStatus]
    if openStatus < 0 then
      { ret := .error { message := "Failed to open source file " ++ src ++ ", return code=" ++
                  toString openStatus },
        state := s, calls := c2 }
    else
      let c3 := c2 ++ [NativeCall.fileDownload f dest downloadStatus]
      if downloadStatus < 0 then
        { ret := .error { message := "Failed to copy Sector file " ++ src ++ " to local file " ++
            dest ++ ", return code=" ++ toString downloadStatus },
          state := s, calls := c3 }
      else { ret := .ok true, state := s, calls := c3 ++ [NativeCall.fileClose f closeStatus] }

/-- The method `copyFromLocalFile`. `WRITE` is the constant `DfsServiceConstants().WRITE`,
`f` identifies the local `SectorFile`, the statuses are what `f.open` and `f.upload`
return; the status of the final `f.close()`, which the method discards, is
`closeStatus`. -/
def DfsServiceHandler.copyFromLocalFile (s : DfsServiceHandler) (WRITE : Int)
    (src dest : String) (f : Nat) (openStatus uploadStatus closeStatus : Int) :
    Outcome (Except DfsServiceIOException Bool) :=
  let c1 := [NativeCall.fileOpen f dest WRITE openStatus]
  if openStatus < 0 then
    { ret := .error { message := "Failed to open destination file " ++ dest ++
        ", return code=" ++ toString openStatus },
      state := s, calls := c1 }
  else
    let c2 := c1 ++ [NativeCall.fileUpload f src uploadStatus]
    if uploadStatus < 0 then
      { ret := .error { message := "Failed to upload source file " ++ src ++ ", return code=" ++
                  toString uploadStatus },
        state := s, calls := c2 }
    else { ret := .ok true, state := s, calls := c2 ++ [NativeCall.fileClose f closeStatus] }

/-! ## Runs of the handler -/

/-- One call of a handler method: its arguments and the answers of the native library. -/
inductive Op where
  | callInit (tokens : List String) (client : Nat) (status : Int)
  | callLogin (clientHandle : ClientHandle) (user password : String) (status : Int)
  | callLogout (clientHandle : ClientHandle) (status : Int)
  | callCloseClient (clientHandle : ClientHandle) (status : Int) (fileStatus : Int → Int)
  | callCloseDfs
  | callListFiles (_return : List FileStatus) (clientHandle : ClientHandle) (path : String)
      (status : Int) (filelist : List SNode)
  | callStat (_return : FileStatus) (clientHandle : ClientHandle) (path : String)
      (status : Int) (attr : SNode)
  | callMkdir (clientHandle : ClientHandle) (path : String) (status : Int)
  | callMove (clientHandle : ClientHandle) (oldpath newpath : String) (status : Int)
  | callRemove (clientHandle : ClientHandle) (path : String) (recursive : Bool) (status : Int)
  | callOpen (clientHandle : ClientHandle) (filename : String) (mode : Int) (f : Nat)
      (status : Int)
  | callClose (clientHandle : ClientHandle) (dfsHandle : DfsHandle) (status : Int)
  | callRead (clientHandle : ClientHandle) (dfsHandle : DfsHandle) (offset len : Int)
      (eof : Bool) (seekStatus readStatus : Int) (buf : Nat → Char)
  | callWrite (clientHandle : ClientHandle) (dfsHandle : DfsHandle) (buf : String)
      (offset len : Int) (seekStatus writeStatus : Int)
  | callCopyToLocalFile (READ : Int) (src dest : String) (f : Nat)
      (statStatus openStatus downloadStatus closeStatus : Int)
  | callCopyFromLocalFile (WRITE : Int) (src dest : String) (f : Nat)
      (openStatus uploadStatus closeStatus : Int)

/-- What the caller of a method receives. -/
inductive Response where
  | client (h : ClientHandle)
  | file (h : DfsHandle)
  | bool (b : Bool)
  | files (l : List FileStatus)
  | status (st : FileStatus)
  | data (payload : String)
  | raised (ex : DfsServiceIOException)
deriving DecidableEq, Repr

/-- Wraps the value of a method that returns normally. -/
def Outcome.respond {α : Type} (g : α → Response) (o : Outcome α) : Outcome Response :=
  { ret := g o.ret, state := o.state, calls := o.calls }

/-- Wraps the value of a method that may raise `DfsServiceIOException`. -/
def Outcome.respondOrRaise {α : Type} (g : α → Response)
    (o : Outcome (Except DfsServiceIOException α)) : Outcome Response :=
  { ret := match o.ret with
      | .ok a => g a
      | .error ex => Response.raised ex,
    state := o.state, calls := o.calls }

/-- Dispatch of one call to the handler method it names. -/
def step (s : DfsServiceHandler) : Op → Option (Outcome Response)
  | .callInit tokens client status =>
    (s.init tokens client status).map (Outcome.respond Response.client)
  | .callLogin h user password status =>
    some ((s.login h user password status).respond Response.bool)
  | .callLogout h status => some ((s.logout h status).respond Response.bool)
  | .callCloseClient h status fileStatus =>
    some ((s.closeClient h status fileStatus).respond Response.bool)
  | .callCloseDfs => some (s.closeDfs.respond Response.bool)
  | .callListFiles r h path status filelist =>
    some ((s.listFiles r h path status filelist).respondOrRaise Response.files)
  | .callStat r h path status attr =>
    some ((s.stat r h path status attr).respondOrRaise Response.status)
  | .callMkdir h path status => some ((s.mkdir h path status).respondOrRaise Response.bool)
  | .callMove h oldpath newpath status =>
    some ((s.move h oldpath newpath status).respondOrRaise Response.bool)
  | .callRemove h path recursive status =>
    some ((s.remove h path recursive status).respondOrRaise Response.bool)
  | .callOpen h filename mode f status =>
    some ((s.open h filename mode f status).respond Response.file)
  | .callClose h d status => some ((s.close h d status).respond Response.bool)
  | .callRead h d offset len eof seekStatus readStatus buf =>
    (s.read h d offset len eof seekStatus readStatus buf).map
      (Outcome.respondOrRaise Response.data)
  | .callWrite h d buf offset len seekStatus writeStatus =>
    some ((s.write h d buf offset len seekStatus writeStatus).respondOrRaise Response.bool)
  | .callCopyToLocalFile READ src dest f st op dl cl =>
    some ((s.copyToLocalFile READ src dest f st op dl cl).respondOrRaise Response.bool)
  | .callCopyFromLocalFile WRITE src dest f op up cl =>
    some ((s.copyFromLocalFile WRITE src dest f op up cl).respondOrRaise Response.bool)

/-- A completed call: the call, what the caller received, the native calls made. -/
structure Event where
  op : Op
  ret : Response
  calls : List NativeCall

/-- Runs a sequence of calls from `s`: the final handler and the log of the calls, or
`none` when one of the calls has no defined result. -/
def run (s : DfsServiceHandler) : List Op → Option (DfsServiceHandler × List Event)
  | [] => some (s, [])
  | op :: ops =>
    match step s op with
    | none => none
    | some out =>
      match run out.state ops with
      | none => none
      | some (s', log) => some (s', { op := op, ret := out.ret, calls := out.calls } :: log)

/-- The session id a call handed out, when the call is an `init` that succeeded
(the native connect returned a non-negative status). -/
def Event.initId (e : Event) : Option Int :=
  match e.op, e.ret with
  | .callInit _ _ status, .client h => if status < 0 then none else some h.id
  | _, _ => none

/-- The file id a call handed out, when the call is an `open` that succeeded (the
native open was made and returned a non-negative status). -/
def Event.openId (e : Event) : Option Int :=
  match e.op, e.ret, e.calls with
  | .callOpen _ _ _ _ status, .file h, _ :: _ => if status < 0 then none else some h.id
  | _, _, _ => none

/-- The session id a call closed, when the call is a `closeClient` that found its
session (it reached the native client). -/
def Event.closedId (e : Event) : Option Int :=
  match e.op, e.calls with
  | .callCloseClient h _ _, _ :: _ => some h.id
  | _, _ => none

/-! ## Registry invariants -/

/-- The ways one call can change the handler: every method leaves it as it was or
makes one of the six updates below. The three labels are the session id the call
handed out, the file id it handed out and the session id it closed, if any. -/
inductive Change (s : DfsServiceHandler) :
    Option Int → Option Int → Option Int → DfsServiceHandler → Prop where
  | same : Change s none none none s
  | initFailed : Change s none none none { s with clientId := s.clientId + 1 }
  | initDone (client : Nat) :
      Change s (some s.clientId) none none { s with
        clientHandleMap :=
          mapAssign s.clientHandleMap s.clientId { client := client, dfsHandleMap := [] },
        clientId := s.clientId + 1 }
  | clientClosed (k : Int) (cs : clientStruct) (hk : mapFind s.clientHandleMap k = some cs) :
      Change s none none (some k) { s with clientHandleMap := mapErase s.clientHandleMap k }
  | openFailed : Change s none none none { s with dfsId := s.dfsId + 1 }
  | openDone (k : Int) (f : Nat) :
      Change s none (some s.dfsId) none { s with
        clientHandleMap := mapModify s.clientHandleMap k
          (fun cs => { cs with dfsHandleMap := mapAssign cs.dfsHandleMap s.dfsId f }),
        dfsId := s.dfsId + 1 }
  | fileClosed (k d : Int) :
      Change s none none none { s with
        clientHandleMap := mapModify s.clientHandleMap k
          (fun cs => { cs with dfsHandleMap := mapErase cs.dfsHandleMap d }) }

/-- The registry invariant: registered session ids lie below the session counter,
registered file ids lie below the file counter, and no file id is registered under
two sessions. -/
def Inv (s : DfsServiceHandler) : Prop :=
  (∀ k cs, mapFind s.clientHandleMap k = some cs → k < s.clientId) ∧
  (∀ k cs d f, mapFind s.clientHandleMap k = some cs →
    mapFind cs.dfsHandleMap d = some f → d < s.dfsId) ∧
  (∀ k₁ k₂ cs₁ cs₂ d f₁ f₂, mapFind s.clientHandleMap k₁ = some cs₁ →
    mapFind s.clientHandleMap k₂ = some cs₂ → mapFind cs₁.dfsHandleMap d = some f₁ →
    mapFind cs₂.dfsHandleMap d = some f₂ → k₁ = k₂)

/-- File id `d` is spent: the file counter is past it and no session holds it. -/
def FileGone (s : DfsServiceHandler) (d : Int) : Prop :=
  d < s.dfsId ∧
  ∀ k cs, mapFind s.clientHandleMap k = some cs → mapFind cs.dfsHandleMap d = none

/-- Session id `k` is spent: the session counter is past it and it is not registered. -/
def SessionGone (s : DfsServiceHandler) (k : Int) : Prop :=
  k < s.clientId ∧ mapFind s.clientHandleMap k = none

/-! ## Observations on native calls, and sample values -/

/-- The client a native call closes and the status returned, when the call is the
native client's `close`. -/
def NativeCall.closedClient : NativeCall → Option (Nat × Int)
  | .sectorClose client status => some (client, status)
  | _ => none

/-- The file handle a native call closes and the status returned, when the call is a
native file's `close`. -/
def NativeCall.closedFile : NativeCall → Option (Nat × Int)
  | .fileClose f status => some (f, status)
  | _ => none

/-- The tokens of the connection target `sector://host:6000`. -/
def sampleTokens : List String := ["sector", "host", "6000"]

/-- A handler with session 10 (native client 100) holding files 10 and 13 (native
files 200 and 203), and session 12 (native client 102) holding file 11. -/
def sampleHandler : DfsServiceHandler :=
  { clientHandleMap :=
      [(10, { client := 100, dfsHandleMap := [(10, 200), (13, 203)] }),
       (12, { client := 102, dfsHandleMap := [(11, 201)] })],
    clientId := 13, dfsId := 14 }

/-- The calls that lead a handler constructed at second 10 to `sampleHandler`: three
connects (the second one failing) and four opens (the third one failing). -/
def sampleOps : List Op :=
  [.callInit sampleTokens 100 0, .callInit sampleTokens 101 (-5), .callInit sampleTokens 102 0,
   .callOpen { id := 10 } "a" 1 200 0, .callOpen { id := 12 } "b" 1 201 0,
   .callOpen { id := 10 } "c" 1 202 (-2), .callOpen { id := 10 } "d" 1 203 0]

/-- The log of `sampleOps`, run from a handler constructed at second 10. -/
def sampleLog : List Event :=
  ((run (DfsServiceHandler.new 10) sampleOps).map Prod.snd).getD []

/-! ## Observations on `read`, and a native file -/

/-- The payload a `read` handed back, when it returned one. -/
def readPayload (r : Option (Outcome (Except DfsServiceIOException String))) : Option String :=
  match r with
  | some { ret := .ok payload, .. } => some payload
  | _ => none

/-- The message of the exception a `read` raised, when it raised one. -/
def readRaised (r : Option (Outcome (Except DfsServiceIOException String))) : Option String :=
  match r with
  | some { ret := .error ex, .. } => some ex.message
  | _ => none

/-- The method `read` as it runs when the character right after the buffer can be
written: the store `buf[status]` with `status = len`, which lies outside the `len`
characters of `new char[len]` and for which `read` has no result, lands in that
character, and the payload is the content of the buffer up to its first `'\0'`.
Everything else is as in `read`. -/
def DfsServiceHandler.readWithSlack (s : DfsServiceHandler) (clientHandle : ClientHandle)
    (dfsHandle : DfsHandle) (offset len : Int) (eof : Bool) (seekStatus readStatus : Int)
    (buf : Nat → Char) : Option (Outcome (Except DfsServiceIOException String)) :=
  match mapFind s.clientHandleMap clientHandle.id with
  | none => some { ret := .ok (String.mk [NUL]), state := s, calls := [] }
  | some cs =>
    match mapFind cs.dfsHandleMap dfsHandle.id with
    | none => some { ret := .ok "", state := s, calls := [] }
    | some f =>
      if eof then some { ret := .ok "", state := s, calls := [NativeCall.fileEof f true] }
      else
        let seek := if 0 ≤ offset then [NativeCall.fileSeekg f offset seekStatus] else []
        if 0 ≤ offset ∧ seekStatus < 0 then
          some { ret := .error { message := "Failed to seek to offset " ++ toString offset ++
                   ", return code=" ++ toString seekStatus },
                 state := s, calls := NativeCall.fileEof f false :: seek }
        else if len < 0 then none
        else
          let calls := NativeCall.fileEof f false :: (seek ++ [NativeCall.fileRead f len readStatus])
          if readStatus < 0 then some { ret := .ok "", state := s, calls := calls }
          else if readStatus < len then
            some { ret := .ok (cString (((List.range len.toNat).map buf).set readStatus.toNat NUL)),
                   state := s, calls := calls }
          else if readStatus = len then
            some { ret := .ok (cString ((List.range len.toNat).map buf ++ [NUL])),
                   state := s, calls := calls }
          else none

/-- Modelled from the spec: the native `SectorFile` of the client library, which is
not part of the sources, as a byte sequence with a position and an end-of-file flag. -/
structure SectorFile where
  data : List Char
  pos : Nat
  atEnd : Bool
deriving DecidableEq, Repr

/-- Modelled from the spec: the native end-of-file test reports the flag. -/
def SectorFile.eof (file : SectorFile) : Bool :=
  file.atEnd

/-- Modelled from the spec: the native seek moves the position and reports success. -/
def SectorFile.seek (file : SectorFile) (offset : Int) : Int × SectorFile :=
  (0, { file with pos := offset.toNat })

/-- Modelled from the spec: the native write stores the first `len` bytes at the
position, advances the position and reports the number of bytes written. -/
def SectorFile.write (file : SectorFile) (bytes : List Char) (len : Int) : Int × SectorFile :=
  let chunk := bytes.take len.toNat
  ((chunk.length : Int),
   { file with
     data := file.data.take file.pos ++ chunk ++ file.data.drop (file.pos + chunk.length),
     pos := file.pos + chunk.length })

/-- Modelled from the spec: the native read hands out at most `len` bytes from the
position on, advances the position and reports the number of bytes read; it raises the
end-of-file flag when fewer than `len` bytes were left. -/
def SectorFile.read (file : SectorFile) (len : Int) : Int × List Char × SectorFile :=
  let chunk := (file.data.drop file.pos).take len.toNat
  ((chunk.length : Int), chunk,
   { file with pos := file.pos + chunk.length,
               atEnd := file.atEnd || decide (chunk.length < len.toNat) })

/-- The buffer `buf[0..3]` after a native read of the three bytes `a`, `'\0'`, `b`. -/
def sampleBuf (i : Nat) : Char :=
  if i = 0 then 'a' else if i = 1 then NUL else if i = 2 then 'b' else 'z'

/-! ## The entry point -/

/-- The constant `DEFAULT_PORT`. -/
def DEFAULT_PORT : Int := 9090

/-- The port `main` hands to the server socket; `argv` is the argument vector,
program name first, and `argc` its length. -/
def mainPort (argv : List String) : Int :=
  if 2 < argv.length then
    match argv with
    | _ :: arg1 :: arg2 :: _ => if arg1 = "-p" then atoi arg2 else DEFAULT_PORT
    | _ => DEFAULT_PORT
  else DEFAULT_PORT

/-- The number a decimal numeral denotes, from its digits, most significant first. -/
def decimalValue (digits : List Nat) : Nat :=
  digits.foldl (fun acc d => acc * 10 + d) 0

/-- The decimal numeral with the given digits, most significant first. -/
def decimalString (digits : List Nat) : String :=
  String.mk (digits.map Nat.digitChar)

/-! ## Program order of the registry updates -/

/-- A step of a method in program order, as far as the mutex is concerned: taking or
releasing the mutex, a native call, or an update of the registry. -/
inductive Action where
  | lock
  | unlock
  | native (call : NativeCall)
  | assignSession (k : Int) (cs : clientStruct)
  | eraseSession (k : Int)
  | assignFile (k d : Int) (f : Nat)
  | eraseFile (k d : Int)
  | incrementClientId
  | incrementDfsId
deriving DecidableEq, Repr

/-- Whether the step writes to the session map, to a file map or to a counter. -/
def Action.mutates : Action → Bool
  | .assignSession _ _ => true
  | .eraseSession _ => true
  | .assignFile _ _ _ => true
  | .eraseFile _ _ => true
  | .incrementClientId => true
  | .incrementDfsId => true
  | _ => false

/-- The native call a step makes, if it is one. -/
def Action.nativeCall : Action → Option NativeCall
  | .native call => some call
  | _ => none

/-- The effect of a step on the handler. -/
def Action.apply (s : DfsServiceHandler) : Action → DfsServiceHandler
  | .assignSession k cs => { s with clientHandleMap := mapAssign s.clientHandleMap k cs }
  | .eraseSession k => { s with clientHandleMap := mapErase s.clientHandleMap k }
  | .assignFile k d f =>
    { s with
      clientHandleMap := mapModify s.clientHandleMap k
        (fun cs => { cs with dfsHandleMap := mapAssign cs.dfsHandleMap d f }) }
  | .eraseFile k d =>
    { s with
      clientHandleMap := mapModify s.clientHandleMap k
        (fun cs => { cs with dfsHandleMap := mapErase cs.dfsHandleMap d }) }
  | .incrementClientId => { s with clientId := s.clientId + 1 }
  | .incrementDfsId => { s with dfsId := s.dfsId + 1 }
  | _ => s

/-- Whether every update in the sequence happens while the mutex is held; `held` tells
whether it is held at the start. -/
def guarded : Bool → List Action → Bool
  | _, [] => true
  | _, .lock :: rest => guarded true rest
  | _, .unlock :: rest => guarded false rest
  | held, a :: rest => (!a.mutates || held) && guarded held rest

/-- The steps of `init` (lines 140-154), with the arguments of `DfsServiceHandler.init`. -/
def initActions (s : DfsServiceHandler) (tokens : List String) (client : Nat) (status : Int) :
    Option (List Action) :=
  match tokens with
  | _dfs :: ip :: port :: _ =>
    some ([Action.lock, Action.native (NativeCall.sectorInit client ip (atoi port) status)] ++
      (if status < 0 then []
       else [Action.assignSession s.clientId { client := client, dfsHandleMap := [] }]) ++
      [Action.incrementClientId, Action.unlock])
  | _ => none

/-- The steps of `closeClient` (lines 230-254), with the arguments of
`DfsServiceHandler.closeClient`. -/
def closeClientActions (s : DfsServiceHandler) (clientHandle : ClientHandle) (status : Int)
    (fileStatus : Int → Int) : List Action :=
  match mapFind s.clientHandleMap clientHandle.id with
  | none => []
  | some cs =>
    Action.native (NativeCall.sectorClose cs.client status) ::
      (cs.dfsHandleMap.map (fun e => Action.native (NativeCall.fileClose e.2 (fileStatus e.1))) ++
        [Action.lock, Action.eraseSession clientHandle.id, Action.unlock])

/-- The steps of `open` (lines 491-513), with the arguments of `DfsServiceHandler.open`. -/
def openActions (s : DfsServiceHandler) (clientHandle : ClientHandle) (filename : String)
    (mode : Int) (f : Nat) (status : Int) : List Action :=
  match mapFind s.clientHandleMap clientHandle.id with
  | none => []
  | some _ =>
    Action.native (NativeCall.fileOpen f filename mode status) ::
      ((if status < 0 then [] else [Action.assignFile clientHandle.id s.dfsId f]) ++
        [Action.incrementDfsId])

/-- The steps of `close` (lines 526-546), with the arguments of `DfsServiceHandler.close`. -/
def closeActions (s : DfsServiceHandler) (clientHandle : ClientHandle) (dfsHandle : DfsHandle)
    (status : Int) : List Action :=
  match mapFind s.clientHandleMap clientHandle.id with
  | none => []
  | some cs =>
    match mapFind cs.dfsHandleMap dfsHandle.id with
    | none => []
    | some f =>
      [Action.native (NativeCall.fileClose f status),
       Action.eraseFile clientHandle.id dfsHandle.id]

/-! ## The trunk server -/

/-- The native file a call addresses, if it addresses one. -/
def NativeCall.file : NativeCall → Option Nat
  | .fileOpen f _ _ _ => some f
  | .fileClose f _ => some f
  | .fileEof f _ => some f
  | .fileSeekg f _ _ => some f
  | .fileRead f _ _ => some f
  | .fileSeekp f _ _ => some f
  | .fileWrite f _ _ _ => some f
  | .fileDownload f _ _ => some f
  | .fileUpload f _ _ => some f
  | _ => none

namespace Trunk

/-- The fields of `DfsServiceHandler` in `trunk/src/cpp/server/SectorServer.cpp`: one map
of native clients and one map of native files, side by side. -/
structure DfsServiceHandler where
  clientHandleMap : List (Int × Nat)
  dfsHandleMap : List (Int × Nat)
  clientId : Int
  dfsId : Int
deriving DecidableEq, Repr

/-- What a method of the trunk handler leaves behind. -/
structure Outcome (α : Type) where
  ret : α
  state : DfsServiceHandler
  calls : List NativeCall

/-- The trunk constructor. -/
def DfsServiceHandler.new (tv_sec : Int) : DfsServiceHandler :=
  { clientHandleMap := [], dfsHandleMap := [], clientId := tv_sec, dfsId := tv_sec }

/-- The trunk method `init`; arguments as for the current server. -/
def DfsServiceHandler.init (s : DfsServiceHandler) (tokens : List String) (client : Nat)
    (status : Int) : Option (Outcome ClientHandle) :=
  match tokens with
  | _dfs :: ip :: port :: _ =>
    let calls := [NativeCall.sectorInit client ip (atoi port) status]
    if status < 0 then
      some { ret := { id := status },
             state := { s with clientId := s.clientId + 1 },
             calls := calls }
    else
      some { ret := { id := s.clientId },
             state := { s with
               clientHandleMap := mapAssign s.clientHandleMap s.clientId client,
               clientId := s.clientId + 1 },
             calls := calls }
  | _ => none

/-- The trunk method `closeClient`; `status` is what `client->close` returns. -/
def DfsServiceHandler.closeClient (s : DfsServiceHandler) (clientHandle : ClientHandle)
    (status : Int) : Outcome Bool :=
  match mapFind s.clientHandleMap clientHandle.id with
  | none => { ret := false, state := s, calls := [] }
  | some client =>
    let calls := [NativeCall.sectorClose client status]
    let s' := { s with clientHandleMap := mapErase s.clientHandleMap clientHandle.id }
    if status < 0 then { ret := false, state := s', calls := calls }
    else { ret := true, state := s', calls := calls }

/-- The trunk method `open`; `f` is the pointer `new SectorFile()` returned and `status`
what `f->open` returns. -/
def DfsServiceHandler.open (s : DfsServiceHandler) (filename : String) (mode : Int) (f : Nat)
    (status : Int) : Outcome DfsHandle :=
  let calls := [NativeCall.fileOpen f filename mode status]
  if status < 0 then
    { ret := { id := status }, state := { s with dfsId := s.dfsId + 1 }, calls := calls }
  else
    { ret := { id := s.dfsId },
      state := { s with dfsHandleMap := mapAssign s.dfsHandleMap s.dfsId f,
                        dfsId := s.dfsId + 1 },
      calls := calls }

/-- The trunk method `close`; `status` is what `f->close` returns. -/
def DfsServiceHandler.close (s : DfsServiceHandler) (dfsHandle : DfsHandle) (status : Int) :
    Outcome Bool :=
  match mapFind s.dfsHandleMap dfsHandle.id with
  | none => { ret := false, state := s, calls := [] }
  | some f =>
    let calls := [NativeCall.fileClose f status]
    let s' := { s with dfsHandleMap := mapErase s.dfsHandleMap dfsHandle.id }
    if status < 0 then { ret := false, state := s', calls := calls }
    else { ret := true, state := s', calls := calls }

/-- The trunk method `read`; arguments and `none` as for the current server. -/
def DfsServiceHandler.read (s : DfsServiceHandler) (dfsHandle : DfsHandle) (offset len : Int)
    (eof : Bool) (seekStatus readStatus : Int) (buf : Nat → Char) :
    Option (Outcome (Except DfsServiceIOException String)) :=
  match mapFind s.dfsHandleMap dfsHandle.id with
  | none => some { ret := .ok "", state := s, calls := [] }
  | some f =>
    if eof then some { ret := .ok "", state := s, calls := [NativeCall.fileEof f true] }
    else
      let seek := if 0 ≤ offset then [NativeCall.fileSeekg f offset seekStatus] else []
      if 0 ≤ offset ∧ seekStatus < 0 then
        some { ret := .error { message := "Failed to seek to offset " ++ toString offset ++
                 ", return code=" ++ toString seekStatus },
               state := s, calls := NativeCall.fileEof f false :: seek }
      else if len < 0 then none
      else
        let calls := NativeCall.fileEof f false :: (seek ++ [NativeCall.fileRead f len readStatus])
        if readStatus < 0 then some { ret := .ok "", state := s, calls := calls }
        else if readStatus < len then
          some { ret := .ok (cString (((List.range len.toNat).map buf).set readStatus.toNat NUL)),
                 state := s, calls := calls }
        else none

/-- The trunk method `write`; arguments as for the current server. -/
def DfsServiceHandler.write (s : DfsServiceHandler) (dfsHandle : DfsHandle) (buf : String)
    (offset len : Int) (seekStatus writeStatus : Int) :
    Outcome (Except DfsServiceIOException Bool) :=
  match mapFind s.dfsHandleMap dfsHandle.id with
  | none => { ret := .ok false, state := s, calls := [] }
  | some f =>
    let seek := if 0 ≤ offset then [NativeCall.fileSeekp f offset seekStatus] else []
    if 0 ≤ offset ∧ seekStatus < 0 then
      { ret := .error { message := "Failed to seek to offset " ++ toString offset ++
          ", return code=" ++ toString seekStatus },
        state := s, calls := seek }
    else
      let calls := seek ++ [NativeCall.fileWrite f buf len writeStatus]
      if writeStatus < 0 then
        { ret := .error { message := "Write failed, return code=" ++ toString writeStatus },
          state := s, calls := calls }
      else { ret := .ok true, state := s, calls := calls }

/-- A trunk handler with session 10 (native client 100) and files 10 and 11 (native
files 200 and 201), both opened by that session's caller. -/
def sampleHandler : DfsServiceHandler :=
  { clientHandleMap := [(10, 100)], dfsHandleMap := [(10, 200), (11, 201)],
    clientId := 11, dfsId := 12 }

end Trunk

/-! ## Facts about the map operations -/

theorem mapFind_cons {V : Type} (k' : Int) (v : V) (m : List (Int × V)) (k : Int) :
    mapFind ((k', v) :: m) k = if k = k' then some v else mapFind m k := rfl

theorem mapErase_cons {V : Type} (k' : Int) (v : V) (m : List (Int × V)) (k : Int) :
    mapErase ((k', v) :: m) k = if k' = k then mapErase m k else (k', v) :: mapErase m k := by
  by_cases h : k' = k <;> simp [mapErase, List.filter, h]

theorem mapModify_cons {V : Type} (k' : Int) (v : V) (m : List (Int × V)) (k : Int)
    (g : V → V) :
    mapModify ((k', v) :: m) k g
      = (if k' = k then (k', g v) else (k', v)) :: mapModify m k g := by
  by_cases h : k' = k <;> simp [mapModify, h]

theorem mapFind_mapAssign {V : Type} (m : List (Int × V)) (k j : Int) (v : V) :
    mapFind (mapAssign m k v) j = if j = k then some v else mapFind m j := by
  induction m with
  | nil => simp [mapAssign, mapFind]
  | cons e m ih =>
    obtain ⟨k', v'⟩ := e
    simp only [mapAssign]
    split_ifs <;> simp_all [mapFind_cons]

theorem mapFind_mapErase {V : Type} (m : List (Int × V)) (k j : Int) :
    mapFind (mapErase m k) j = if j = k then none else mapFind m j := by
  induction m with
  | nil => simp [mapErase, mapFind]
  | cons e m ih =>
    obtain ⟨k', v'⟩ := e
    rw [mapErase_cons]
    by_cases h1 : k' = k
    · subst h1
      by_cases h2 : j = k'
      · subst h2; simp [ih]
      · simp [ih, h2, mapFind_cons]
    · by_cases h2 : j = k
      · subst h2; simp [h1, mapFind_cons, ih, Ne.symm h1]
      · simp [h1, mapFind_cons, ih, h2]

theorem mapFind_mapModify {V : Type} (m : List (Int × V)) (k j : Int) (g : V → V) :
    mapFind (mapModify m k g) j = if j = k then (mapFind m k).map g else mapFind m j := by
  induction m with
  | nil => simp [mapModify, mapFind]
  | cons e m ih =>
    obtain ⟨k', v'⟩ := e
    rw [mapModify_cons]
    by_cases h1 : k' = k
    · subst h1
      by_cases h2 : j = k'
      · subst h2; simp [mapFind_cons]
      · simp [mapFind_cons, ih, h2]
    · by_cases h2 : j = k
      · subst h2; simp [h1, mapFind_cons, ih, Ne.symm h1]
      · simp [h1, mapFind_cons, ih, h2]

theorem mapFind_mapAssign_some {V : Type} {m : List (Int × V)} {k j : Int} {v w : V}
    (h : mapFind (mapAssign m k v) j = some w) :
    (j = k ∧ w = v) ∨ (j ≠ k ∧ mapFind m j = some w) := by
  rw [mapFind_mapAssign] at h
  by_cases hj : j = k
  · simp only [hj, if_true, Option.some.injEq] at h
    exact Or.inl ⟨hj, h.symm⟩
  · simp only [hj, if_false] at h
    exact Or.inr ⟨hj, h⟩

theorem mapFind_mapErase_some {V : Type} {m : List (Int × V)} {k j : Int} {w : V}
    (h : mapFind (mapErase m k) j = some w) : j ≠ k ∧ mapFind m j = some w := by
  rw [mapFind_mapErase] at h
  by_cases hj : j = k
  · simp [hj] at h
  · simp only [hj, if_false] at h
    exact ⟨hj, h⟩

theorem mapFind_mapModify_some {V : Type} {m : List (Int × V)} {k j : Int} {g : V → V} {w : V}
    (h : mapFind (mapModify m k g) j = some w) :
    (j = k ∧ ∃ v, mapFind m k = some v ∧ w = g v) ∨ (j ≠ k ∧ mapFind m j = some w) := by
  rw [mapFind_mapModify] at h
  by_cases hj : j = k
  · simp only [hj, if_true, Option.map_eq_some'] at h
    obtain ⟨v, hv, hw⟩ := h
    exact Or.inl ⟨hj, v, hv, hw.symm⟩
  · simp only [hj, if_false] at h
    exact Or.inr ⟨hj, h⟩

/-! ## Facts about single calls -/

theorem step_change {s : DfsServiceHandler} {op : Op} {out : Outcome Response}
    (h : step s op = some out) :
    Change s (Event.initId { op := op, ret := out.ret, calls := out.calls })
      (Event.openId { op := op, ret := out.ret, calls := out.calls })
      (Event.closedId { op := op, ret := out.ret, calls := out.calls }) out.state := by
  cases op with
  | callInit tokens client status =>
    simp only [step, DfsServiceHandler.init, Option.map_eq_some'] at h
    obtain ⟨o, ho, rfl⟩ := h
    split at ho
    · split at ho <;> cases ho
      · rename_i hs
        simp only [Event.initId, Event.openId, Event.closedId, Outcome.respond, hs, if_true]
        exact Change.initFailed
      · rename_i hs
        simp only [Event.initId, Event.openId, Event.closedId, Outcome.respond, hs, if_false]
        exact Change.initDone client
    · cases ho
  | callLogin h' user password status =>
    simp only [step, DfsServiceHandler.login, Option.some.injEq] at h
    subst h
    split <;> [skip; split] <;> exact Change.same
  | callLogout h' status =>
    simp only [step, DfsServiceHandler.logout, Option.some.injEq] at h
    subst h
    split <;> [skip; split] <;> exact Change.same
  | callCloseClient h' status fileStatus =>
    simp only [step, DfsServiceHandler.closeClient, Option.some.injEq] at h
    subst h
    split
    · exact Change.same
    · rename_i cs hcs
      split <;> exact Change.clientClosed _ cs hcs
  | callCloseDfs =>
    simp only [step, DfsServiceHandler.closeDfs, Option.some.injEq] at h
    subst h
    exact Change.same
  | callListFiles r h' path status filelist =>
    simp only [step, DfsServiceHandler.listFiles, Option.some.injEq] at h
    subst h
    split <;> [skip; split] <;> exact Change.same
  | callStat r h' path status attr =>
    simp only [step, DfsServiceHandler.stat, Option.some.injEq] at h
    subst h
    split <;> [skip; split] <;> exact Change.same
  | callMkdir h' path status =>
    simp only [step, DfsServiceHandler.mkdir, Option.some.injEq] at h
    subst h
    split <;> [skip; split] <;> exact Change.same
  | callMove h' oldpath newpath status =>
    simp only [step, DfsServiceHandler.move, Option.some.injEq] at h
    subst h
    split <;> [skip; split] <;> exact Change.same
  | callRemove h' path recursive status =>
    simp only [step, DfsServiceHandler.remove, Option.some.injEq] at h
    subst h
    split <;> [skip; split] <;> exact Change.same
  | callOpen h' filename mode f status =>
    simp only [step, DfsServiceHandler.open, Option.some.injEq] at h
    subst h
    split <;> [exact Change.same; split]
    · rename_i hs
      simp only [Event.initId, Event.openId, Event.closedId, Outcome.respond, hs, if_true]
      exact Change.openFailed
    · rename_i hs
      simp only [Event.initId, Event.openId, Event.closedId, Outcome.respond, hs, if_false]
      exact Change.openDone _ _
  | callClose h' d status =>
    simp only [step, DfsServiceHandler.close, Option.some.injEq] at h
    subst h
    split <;> [exact Change.same; split] <;> [exact Change.same; split] <;>
      exact Change.fileClosed _ _
  | callRead h' d offset len eof seekStatus readStatus buf =>
    simp only [step, DfsServiceHandler.read, Option.map_eq_some'] at h
    obtain ⟨o, ho, rfl⟩ := h
    repeat' split at ho
    all_goals first
      | cases ho
        exact Change.same
      | cases ho
  | callWrite h' d buf offset len seekStatus writeStatus =>
    simp only [step, DfsServiceHandler.write, Option.some.injEq] at h
    subst h
    repeat' split
    all_goals exact Change.same
  | callCopyToLocalFile READ src dest f st op dl cl =>
    simp only [step, DfsServiceHandler.copyToLocalFile, Option.some.injEq] at h
    subst h
    repeat' split
    all_goals exact Change.same
  | callCopyFromLocalFile WRITE src dest f op up cl =>
    simp only [step, DfsServiceHandler.copyFromLocalFile, Option.some.injEq] at h
    subst h
    repeat' split
    all_goals exact Change.same

/-! ## Facts about changes of the handler -/

theorem Change.clientId_le {s s' : DfsServiceHandler} {a b c : Option Int}
    (h : Change s a b c s') : s.clientId ≤ s'.clientId := by
  cases h <;> simp

theorem Change.dfsId_le {s s' : DfsServiceHandler} {a b c : Option Int}
    (h : Change s a b c s') : s.dfsId ≤ s'.dfsId := by
  cases h <;> simp

theorem Change.newSession {s s' : DfsServiceHandler} {id : Int} {b c : Option Int}
    (h : Change s (some id) b c s') : id = s.clientId ∧ s'.clientId = s.clientId + 1 := by
  cases h
  exact ⟨rfl, rfl⟩

theorem Change.newFile {s s' : DfsServiceHandler} {id : Int} {a c : Option Int}
    (h : Change s a (some id) c s') : id = s.dfsId ∧ s'.dfsId = s.dfsId + 1 := by
  cases h
  exact ⟨rfl, rfl⟩

theorem Change.closed {s s' : DfsServiceHandler} {k : Int} {a b : Option Int}
    (h : Change s a b (some k) s') :
    (∃ cs, mapFind s.clientHandleMap k = some cs) ∧ mapFind s'.clientHandleMap k = none := by
  cases h with
  | clientClosed _ cs hk => exact ⟨⟨cs, hk⟩, by simp [mapFind_mapErase]⟩

theorem Change.registered {s s' : DfsServiceHandler} {a b c : Option Int}
    (h : Change s a b c s') (k : Int) (hk : mapFind s'.clientHandleMap k ≠ none) :
    mapFind s.clientHandleMap k ≠ none ∨ a = some k := by
  cases h with
  | same => exact Or.inl hk
  | initFailed => exact Or.inl hk
  | initDone client =>
    simp only [mapFind_mapAssign] at hk
    by_cases hkc : k = s.clientId
    · exact Or.inr (by rw [hkc])
    · simp only [hkc, if_false] at hk
      exact Or.inl hk
  | clientClosed k0 cs hk0 =>
    simp only [mapFind_mapErase] at hk
    by_cases hkc : k = k0
    · simp [hkc] at hk
    · simp only [hkc, if_false] at hk
      exact Or.inl hk
  | openFailed => exact Or.inl hk
  | openDone k0 f =>
    simp only [mapFind_mapModify] at hk
    by_cases hkc : k = k0
    · subst hkc
      simp only [if_true, ne_eq, Option.map_eq_none'] at hk
      exact Or.inl hk
    · simp only [hkc, if_false] at hk
      exact Or.inl hk
  | fileClosed k0 d =>
    simp only [mapFind_mapModify] at hk
    by_cases hkc : k = k0
    · subst hkc
      simp only [if_true, ne_eq, Option.map_eq_none'] at hk
      exact Or.inl hk
    · simp only [hkc, if_false] at hk
      exact Or.inl hk

theorem Change.sessionGone {s s' : DfsServiceHandler} {a b c : Option Int}
    (h : Change s a b c s') {k : Int} (hg : SessionGone s k) : SessionGone s' k := by
  obtain ⟨hlt, hnone⟩ := hg
  cases h with
  | same => exact ⟨hlt, hnone⟩
  | initFailed => exact ⟨by simp; omega, hnone⟩
  | initDone client =>
    refine ⟨by simp; omega, ?_⟩
    have : ¬ k = s.clientId := by omega
    simp [mapFind_mapAssign, this, hnone]
  | clientClosed k0 cs hk0 =>
    refine ⟨hlt, ?_⟩
    simp only [mapFind_mapErase]
    split_ifs <;> simp [hnone]
  | openFailed => exact ⟨hlt, hnone⟩
  | openDone k0 f =>
    refine ⟨hlt, ?_⟩
    simp only [mapFind_mapModify]
    split_ifs with hk
    · subst hk; simp [hnone]
    · exact hnone
  | fileClosed k0 d =>
    refine ⟨hlt, ?_⟩
    simp only [mapFind_mapModify]
    split_ifs with hk
    · subst hk; simp [hnone]
    · exact hnone

theorem Change.fileGone {s s' : DfsServiceHandler} {a b c : Option Int}
    (h : Change s a b c s') {d : Int} (hg : FileGone s d) : FileGone s' d := by
  obtain ⟨hlt, hnone⟩ := hg
  cases h with
  | same => exact ⟨hlt, hnone⟩
  | initFailed => exact ⟨hlt, hnone⟩
  | initDone client =>
    refine ⟨hlt, fun k cs hk => ?_⟩
    rcases mapFind_mapAssign_some hk with ⟨_, rfl⟩ | ⟨_, hk'⟩
    · rfl
    · exact hnone k cs hk'
  | clientClosed k0 cs0 hk0 =>
    refine ⟨hlt, fun k cs hk => ?_⟩
    exact hnone k cs (mapFind_mapErase_some hk).2
  | openFailed => exact ⟨by simp; omega, hnone⟩
  | openDone k0 f =>
    refine ⟨by simp; omega, fun k cs hk => ?_⟩
    dsimp only at hk
    rcases mapFind_mapModify_some hk with ⟨_, v, hv, rfl⟩ | ⟨_, hk'⟩
    · have : ¬ d = s.dfsId := by omega
      simp [mapFind_mapAssign, this, hnone k0 v hv]
    · exact hnone k cs hk'
  | fileClosed k0 d0 =>
    refine ⟨hlt, fun k cs hk => ?_⟩
    dsimp only at hk
    rcases mapFind_mapModify_some hk with ⟨_, v, hv, rfl⟩ | ⟨_, hk'⟩
    · simp only [mapFind_mapErase]
      split_ifs
      · rfl
      · exact hnone k0 v hv
    · exact hnone k cs hk'

theorem Change.inv {s s' : DfsServiceHandler} {a b c : Option Int}
    (h : Change s a b c s') (hi : Inv s) : Inv s' := by
  obtain ⟨h1, h2, h3⟩ := hi
  cases h with
  | same => exact ⟨h1, h2, h3⟩
  | initFailed =>
    exact ⟨fun k cs hk => by have := h1 k cs hk; simp; omega, h2, h3⟩
  | initDone client =>
    refine ⟨fun k cs hk => ?_, fun k cs d f hk hd => ?_,
      fun k₁ k₂ cs₁ cs₂ d f₁ f₂ hk₁ hk₂ hd₁ hd₂ => ?_⟩
    · rcases mapFind_mapAssign_some hk with ⟨rfl, _⟩ | ⟨_, hk'⟩
      · simp
      · have := h1 k cs hk'; simp; omega
    · rcases mapFind_mapAssign_some hk with ⟨_, rfl⟩ | ⟨_, hk'⟩
      · simp [mapFind] at hd
      · exact h2 k cs d f hk' hd
    · rcases mapFind_mapAssign_some hk₁ with ⟨_, rfl⟩ | ⟨_, hk₁'⟩
      · simp [mapFind] at hd₁
      · rcases mapFind_mapAssign_some hk₂ with ⟨_, rfl⟩ | ⟨_, hk₂'⟩
        · simp [mapFind] at hd₂
        · exact h3 k₁ k₂ cs₁ cs₂ d f₁ f₂ hk₁' hk₂' hd₁ hd₂
  | clientClosed k0 cs0 hk0 =>
    refine ⟨fun k cs hk => h1 k cs (mapFind_mapErase_some hk).2,
      fun k cs d f hk hd => h2 k cs d f (mapFind_mapErase_some hk).2 hd,
      fun k₁ k₂ cs₁ cs₂ d f₁ f₂ hk₁ hk₂ hd₁ hd₂ =>
        h3 k₁ k₂ cs₁ cs₂ d f₁ f₂ (mapFind_mapErase_some hk₁).2 (mapFind_mapErase_some hk₂).2
          hd₁ hd₂⟩
  | openFailed =>
    exact ⟨h1, fun k cs d f hk hd => by have := h2 k cs d f hk hd; simp; omega, h3⟩
  | openDone k0 f0 =>
    refine ⟨fun k cs hk => ?_, fun k cs d f hk hd => ?_,
      fun k₁ k₂ cs₁ cs₂ d f₁ f₂ hk₁ hk₂ hd₁ hd₂ => ?_⟩
    · dsimp only at hk
      rcases mapFind_mapModify_some hk with ⟨rfl, v, hv, _⟩ | ⟨_, hk'⟩
      · exact h1 k v hv
      · exact h1 k cs hk'
    · dsimp only at hk
      rcases mapFind_mapModify_some hk with ⟨rfl, v, hv, rfl⟩ | ⟨_, hk'⟩
      · rcases mapFind_mapAssign_some hd with ⟨rfl, _⟩ | ⟨_, hd'⟩
        · simp
        · have := h2 k v d f hv hd'; simp; omega
      · have := h2 k cs d f hk' hd; simp; omega
    · dsimp only at hk₁
      rcases mapFind_mapModify_some hk₁ with ⟨rfl, v₁, hv₁, rfl⟩ | ⟨hne₁, hk₁'⟩
      · dsimp only at hk₂
        rcases mapFind_mapModify_some hk₂ with ⟨rfl, v₂, hv₂, rfl⟩ | ⟨_, hk₂'⟩
        · rfl
        · rcases mapFind_mapAssign_some hd₁ with ⟨rfl, _⟩ | ⟨_, hd₁'⟩
          · have := h2 k₂ cs₂ _ f₂ hk₂' hd₂; omega
          · exact h3 _ k₂ v₁ cs₂ d f₁ f₂ hv₁ hk₂' hd₁' hd₂
      · dsimp only at hk₂
        rcases mapFind_mapModify_some hk₂ with ⟨rfl, v₂, hv₂, rfl⟩ | ⟨_, hk₂'⟩
        · rcases mapFind_mapAssign_some hd₂ with ⟨rfl, _⟩ | ⟨_, hd₂'⟩
          · have := h2 k₁ cs₁ _ f₁ hk₁' hd₁; omega
          · exact h3 k₁ _ cs₁ v₂ d f₁ f₂ hk₁' hv₂ hd₁ hd₂'
        · exact h3 k₁ k₂ cs₁ cs₂ d f₁ f₂ hk₁' hk₂' hd₁ hd₂
  | fileClosed k0 d0 =>
    refine ⟨fun k cs hk => ?_, fun k cs d f hk hd => ?_,
      fun k₁ k₂ cs₁ cs₂ d f₁ f₂ hk₁ hk₂ hd₁ hd₂ => ?_⟩
    · dsimp only at hk
      rcases mapFind_mapModify_some hk with ⟨rfl, v, hv, _⟩ | ⟨_, hk'⟩
      · exact h1 k v hv
      · exact h1 k cs hk'
    · dsimp only at hk
      rcases mapFind_mapModify_some hk with ⟨rfl, v, hv, rfl⟩ | ⟨_, hk'⟩
      · exact h2 k v d f hv (mapFind_mapErase_some hd).2
      · exact h2 k cs d f hk' hd
    · dsimp only at hk₁
      rcases mapFind_mapModify_some hk₁ with ⟨rfl, v₁, hv₁, rfl⟩ | ⟨hne₁, hk₁'⟩
      · dsimp only at hk₂
        rcases mapFind_mapModify_some hk₂ with ⟨rfl, v₂, hv₂, rfl⟩ | ⟨_, hk₂'⟩
        · rfl
        · exact h3 _ k₂ v₁ cs₂ d f₁ f₂ hv₁ hk₂' (mapFind_mapErase_some hd₁).2 hd₂
      · dsimp only at hk₂
        rcases mapFind_mapModify_some hk₂ with ⟨rfl, v₂, hv₂, rfl⟩ | ⟨_, hk₂'⟩
        · exact h3 k₁ _ cs₁ v₂ d f₁ f₂ hk₁' hv₂ hd₁ (mapFind_mapErase_some hd₂).2
        · exact h3 k₁ k₂ cs₁ cs₂ d f₁ f₂ hk₁' hk₂' hd₁ hd₂

/-! ## Facts about runs -/

theorem run_cons {s s' : DfsServiceHandler} {op : Op} {ops : List Op} {log : List Event}
    (h : run s (op :: ops) = some (s', log)) :
    ∃ out log', step s op = some out ∧ run out.state ops = some (s', log') ∧
      log = { op := op, ret := out.ret, calls := out.calls } :: log' := by
  simp only [run] at h
  cases hstep : step s op with
  | none => simp [hstep] at h
  | some out =>
    simp only [hstep] at h
    cases hrun : run out.state ops with
    | none => simp [hrun] at h
    | some r =>
      obtain ⟨s'', log'⟩ := r
      simp only [hrun, Option.some.injEq, Prod.mk.injEq] at h
      obtain ⟨rfl, rfl⟩ := h
      exact ⟨out, log', rfl, hrun, rfl⟩

theorem inv_new (tv_sec : Int) : Inv (DfsServiceHandler.new tv_sec) := by
  refine ⟨fun k cs hk => ?_, fun k cs d f hk _ => ?_,
    fun k₁ k₂ cs₁ cs₂ d f₁ f₂ hk₁ _ _ _ => ?_⟩
  · simp [DfsServiceHandler.new, mapFind] at hk
  · simp [DfsServiceHandler.new, mapFind] at hk
  · simp [DfsServiceHandler.new, mapFind] at hk₁

theorem run_inv {ops : List Op} : ∀ {s s' : DfsServiceHandler} {log : List Event},
    run s ops = some (s', log) → Inv s → Inv s' := by
  induction ops with
  | nil =>
    intro s s' log h hi
    simp only [run, Option.some.injEq, Prod.mk.injEq] at h
    exact h.1 ▸ hi
  | cons op ops ih =>
    intro s s' log h hi
    obtain ⟨out, log', hstep, hrun, _⟩ := run_cons h
    exact ih hrun ((step_change hstep).inv hi)

theorem run_fileGone {ops : List Op} : ∀ {s s' : DfsServiceHandler} {log : List Event} {d : Int},
    run s ops = some (s', log) → FileGone s d → FileGone s' d := by
  induction ops with
  | nil =>
    intro s s' log d h hg
    simp only [run, Option.some.injEq, Prod.mk.injEq] at h
    exact h.1 ▸ hg
  | cons op ops ih =>
    intro s s' log d h hg
    obtain ⟨out, log', hstep, hrun, _⟩ := run_cons h
    exact ih hrun ((step_change hstep).fileGone hg)

theorem run_sessionGone {ops : List Op} :
    ∀ {s s' : DfsServiceHandler} {log : List Event} {k : Int},
    run s ops = some (s', log) → SessionGone s k → SessionGone s' k := by
  induction ops with
  | nil =>
    intro s s' log k h hg
    simp only [run, Option.some.injEq, Prod.mk.injEq] at h
    exact h.1 ▸ hg
  | cons op ops ih =>
    intro s s' log k h hg
    obtain ⟨out, log', hstep, hrun, _⟩ := run_cons h
    exact ih hrun ((step_change hstep).sessionGone hg)

theorem run_clientId_le {ops : List Op} : ∀ {s s' : DfsServiceHandler} {log : List Event},
    run s ops = some (s', log) → s.clientId ≤ s'.clientId := by
  induction ops with
  | nil =>
    intro s s' log h
    simp only [run, Option.some.injEq, Prod.mk.injEq] at h
    rw [h.1]
  | cons op ops ih =>
    intro s s' log h
    obtain ⟨out, log', hstep, hrun, _⟩ := run_cons h
    exact le_trans (step_change hstep).clientId_le (ih hrun)

theorem run_initIds {ops : List Op} : ∀ {s s' : DfsServiceHandler} {log : List Event},
    run s ops = some (s', log) →
    (∀ id ∈ log.filterMap Event.initId, s.clientId ≤ id) ∧
      (log.filterMap Event.initId).Nodup := by
  induction ops with
  | nil =>
    intro s s' log h
    simp only [run, Option.some.injEq, Prod.mk.injEq] at h
    simp [← h.2]
  | cons op ops ih =>
    intro s s' log h
    obtain ⟨out, log', hstep, hrun, rfl⟩ := run_cons h
    obtain ⟨hge, hnd⟩ := ih hrun
    have hc := step_change hstep
    have hle := hc.clientId_le
    cases hid : Event.initId { op := op, ret := out.ret, calls := out.calls } with
    | none =>
      simp only [List.filterMap_cons, hid]
      exact ⟨fun id hmem => le_trans hle (hge id hmem), hnd⟩
    | some id0 =>
      rw [hid] at hc
      obtain ⟨rfl, hnext⟩ := hc.newSession
      simp only [List.filterMap_cons, hid, List.mem_cons, List.nodup_cons]
      refine ⟨fun id hmem => ?_, fun hmem => ?_, hnd⟩
      · rcases hmem with rfl | hmem
        · exact le_refl _
        · exact le_trans hle (hge id hmem)
      · have := hge _ hmem
        omega

theorem run_openIds {ops : List Op} : ∀ {s s' : DfsServiceHandler} {log : List Event},
    run s ops = some (s', log) →
    (∀ id ∈ log.filterMap Event.openId, s.dfsId ≤ id) ∧
      (log.filterMap Event.openId).Nodup := by
  induction ops with
  | nil =>
    intro s s' log h
    simp only [run, Option.some.injEq, Prod.mk.injEq] at h
    simp [← h.2]
  | cons op ops ih =>
    intro s s' log h
    obtain ⟨out, log', hstep, hrun, rfl⟩ := run_cons h
    obtain ⟨hge, hnd⟩ := ih hrun
    have hc := step_change hstep
    have hle := hc.dfsId_le
    cases hid : Event.openId { op := op, ret := out.ret, calls := out.calls } with
    | none =>
      simp only [List.filterMap_cons, hid]
      exact ⟨fun id hmem => le_trans hle (hge id hmem), hnd⟩
    | some id0 =>
      rw [hid] at hc
      obtain ⟨rfl, hnext⟩ := hc.newFile
      simp only [List.filterMap_cons, hid, List.mem_cons, List.nodup_cons]
      refine ⟨fun id hmem => ?_, fun hmem => ?_, hnd⟩
      · rcases hmem with rfl | hmem
        · exact le_refl _
        · exact le_trans hle (hge id hmem)
      · have := hge _ hmem
        omega

theorem run_registered {ops : List Op} : ∀ {s s' : DfsServiceHandler} {log : List Event} {k : Int},
    run s ops = some (s', log) → mapFind s'.clientHandleMap k ≠ none →
    mapFind s.clientHandleMap k ≠ none ∨ k ∈ log.filterMap Event.initId := by
  induction ops with
  | nil =>
    intro s s' log k h hk
    simp only [run, Option.some.injEq, Prod.mk.injEq] at h
    exact Or.inl (h.1 ▸ hk)
  | cons op ops ih =>
    intro s s' log k h hk
    obtain ⟨out, log', hstep, hrun, rfl⟩ := run_cons h
    rcases ih hrun hk with hk' | hmem
    · rcases (step_change hstep).registered k hk' with hk'' | hid
      · exact Or.inl hk''
      · exact Or.inr (by simp [List.filterMap_cons, hid])
    · refine Or.inr ?_
      cases hid : Event.initId { op := op, ret := out.ret, calls := out.calls } <;>
        simp [List.filterMap_cons, hid, hmem]

theorem run_closed {ops : List Op} : ∀ {s s' : DfsServiceHandler} {log : List Event},
    run s ops = some (s', log) → Inv s →
    ∀ k ∈ log.filterMap Event.closedId, SessionGone s' k := by
  induction ops with
  | nil =>
    intro s s' log h _
    simp only [run, Option.some.injEq, Prod.mk.injEq] at h
    simp [← h.2]
  | cons op ops ih =>
    intro s s' log h hi k hk
    obtain ⟨out, log', hstep, hrun, rfl⟩ := run_cons h
    have hc := step_change hstep
    cases hid : Event.closedId { op := op, ret := out.ret, calls := out.calls } with
    | none =>
      simp only [List.filterMap_cons, hid] at hk
      exact ih hrun (hc.inv hi) k hk
    | some k0 =>
      simp only [List.filterMap_cons, hid, List.mem_cons] at hk
      rcases hk with rfl | hk
      · rw [hid] at hc
        obtain ⟨⟨cs, hcs⟩, hnone⟩ := hc.closed
        have hlt : k < out.state.clientId := lt_of_lt_of_le (hi.1 k cs hcs) hc.clientId_le
        exact run_sessionGone hrun ⟨hlt, hnone⟩
      · exact ih hrun (hc.inv hi) k hk

/-! ## Lookups that fail, lookups that succeed -/

theorem close_not_found (s : DfsServiceHandler) (clientHandle : ClientHandle)
    (dfsHandle : DfsHandle) (status : Int)
    (hn : ∀ cs, mapFind s.clientHandleMap clientHandle.id = some cs →
      mapFind cs.dfsHandleMap dfsHandle.id = none) :
    s.close clientHandle dfsHandle status = { ret := false, state := s, calls := [] } := by
  unfold DfsServiceHandler.close
  cases hcs : mapFind s.clientHandleMap clientHandle.id with
  | none => rfl
  | some cs => simp only [hn cs hcs]

theorem write_not_found (s : DfsServiceHandler) (clientHandle : ClientHandle)
    (dfsHandle : DfsHandle) (buf : String) (offset len seekStatus writeStatus : Int)
    (hn : ∀ cs, mapFind s.clientHandleMap clientHandle.id = some cs →
      mapFind cs.dfsHandleMap dfsHandle.id = none) :
    s.write clientHandle dfsHandle buf offset len seekStatus writeStatus
      = { ret := .ok false, state := s, calls := [] } := by
  unfold DfsServiceHandler.write
  cases hcs : mapFind s.clientHandleMap clientHandle.id with
  | none => rfl
  | some cs => simp only [hn cs hcs]

theorem read_not_found (s : DfsServiceHandler) (clientHandle : ClientHandle)
    (dfsHandle : DfsHandle) (offset len : Int) (eof : Bool) (seekStatus readStatus : Int)
    (buf : Nat → Char)
    (hn : ∀ cs, mapFind s.clientHandleMap clientHandle.id = some cs →
      mapFind cs.dfsHandleMap dfsHandle.id = none) :
    s.read clientHandle dfsHandle offset len eof seekStatus readStatus buf
      = some { ret := .ok (if (mapFind s.clientHandleMap clientHandle.id).isSome then ""
                           else String.mk [NUL]),
               state := s, calls := [] } := by
  unfold DfsServiceHandler.read
  cases hcs : mapFind s.clientHandleMap clientHandle.id with
  | none => rfl
  | some cs => simp only [hn cs hcs, Option.isSome_some, if_true]

theorem close_found (s : DfsServiceHandler) (clientHandle : ClientHandle)
    (dfsHandle : DfsHandle) (status : Int) (cs : clientStruct) (f : Nat)
    (hcs : mapFind s.clientHandleMap clientHandle.id = some cs)
    (hf : mapFind cs.dfsHandleMap dfsHandle.id = some f) :
    s.close clientHandle dfsHandle status
      = { ret := decide (0 ≤ status),
          state := { s with
            clientHandleMap := mapModify s.clientHandleMap clientHandle.id
              (fun cs => { cs with dfsHandleMap := mapErase cs.dfsHandleMap dfsHandle.id }) },
          calls := [NativeCall.fileClose f status] } := by
  simp only [DfsServiceHandler.close, hcs, hf]
  by_cases hst : status < 0
  · have : ¬ 0 ≤ status := by omega
    simp [hst, this]
  · have : 0 ≤ status := by omega
    simp [hst, this]

theorem closeClient_found (s : DfsServiceHandler) (clientHandle : ClientHandle)
    (status : Int) (fileStatus : Int → Int) (cs : clientStruct)
    (hcs : mapFind s.clientHandleMap clientHandle.id = some cs) :
    (s.closeClient clientHandle status fileStatus).state
      = { s with clientHandleMap := mapErase s.clientHandleMap clientHandle.id } := by
  simp only [DfsServiceHandler.closeClient, hcs]
  split <;> rfl

theorem open_found (s : DfsServiceHandler) (clientHandle : ClientHandle) (filename : String)
    (mode : Int) (f : Nat) (status : Int) (cs : clientStruct)
    (hcs : mapFind s.clientHandleMap clientHandle.id = some cs) (hst : 0 ≤ status) :
    s.open clientHandle filename mode f status
      = { ret := { id := s.dfsId },
          state := { s with
            clientHandleMap := mapModify s.clientHandleMap clientHandle.id
              (fun cs => { cs with dfsHandleMap := mapAssign cs.dfsHandleMap s.dfsId f }),
            dfsId := s.dfsId + 1 },
          calls := [NativeCall.fileOpen f filename mode status] } := by
  have : ¬ status < 0 := by omega
  simp only [DfsServiceHandler.open, hcs, this, if_false]

theorem fileGone_after_close {s : DfsServiceHandler} (hi : Inv s) {k d : Int}
    {cs : clientStruct} {f : Nat} (hk : mapFind s.clientHandleMap k = some cs)
    (hd : mapFind cs.dfsHandleMap d = some f) :
    FileGone { s with
      clientHandleMap := mapModify s.clientHandleMap k
        (fun cs => { cs with dfsHandleMap := mapErase cs.dfsHandleMap d }) } d := by
  refine ⟨hi.2.1 k cs d f hk hd, fun k' cs' hk' => ?_⟩
  dsimp only at hk'
  rcases mapFind_mapModify_some hk' with ⟨_, v, _, rfl⟩ | ⟨hne, hk''⟩
  · simp [mapFind_mapErase]
  · cases hd' : mapFind cs'.dfsHandleMap d with
    | none => rfl
    | some f' => exact absurd (hi.2.2 k' k cs' cs d f' f hk'' hk hd' hd) hne

theorem fileGone_after_closeClient {s : DfsServiceHandler} (hi : Inv s) {k d : Int}
    {cs : clientStruct} {f : Nat} (hk : mapFind s.clientHandleMap k = some cs)
    (hd : mapFind cs.dfsHandleMap d = some f) :
    FileGone { s with clientHandleMap := mapErase s.clientHandleMap k } d := by
  refine ⟨hi.2.1 k cs d f hk hd, fun k' cs' hk' => ?_⟩
  obtain ⟨hne, hk''⟩ := mapFind_mapErase_some hk'
  cases hd' : mapFind cs'.dfsHandleMap d with
  | none => rfl
  | some f' => exact absurd (hi.2.2 k' k cs' cs d f' f hk'' hk hd' hd) hne

/-! ## Session close -/

/-- C3: `closeClient` on a registered session calls the native client's close exactly
once, and calls the native close of the files registered under the session once per
registered handle, in map order, whatever status each of these closes returns; it makes
no other native call. -/
theorem closeClient_closes_every_file_once (s : DfsServiceHandler)
    (clientHandle : ClientHandle) (status : Int) (fileStatus : Int → Int) (cs : clientStruct)
    (hcs : mapFind s.clientHandleMap clientHandle.id = some cs) :
    ((s.closeClient clientHandle status fileStatus).calls.filterMap NativeCall.closedClient
        = [(cs.client, status)]) ∧
    ((s.closeClient clientHandle status fileStatus).calls.filterMap NativeCall.closedFile
        = cs.dfsHandleMap.map (fun e => (e.2, fileStatus e.1))) ∧
    (s.closeClient clientHandle status fileStatus).calls.length
        = 1 + cs.dfsHandleMap.length := by
  have hcalls : (s.closeClient clientHandle status fileStatus).calls
      = NativeCall.sectorClose cs.client status ::
          cs.dfsHandleMap.map (fun e => NativeCall.fileClose e.2 (fileStatus e.1)) := by
    simp only [DfsServiceHandler.closeClient, hcs]
    split <;> rfl
  rw [hcalls]
  refine ⟨?_, ?_, ?_⟩
  · simp only [List.filterMap_cons, NativeCall.closedClient]
    congr 1
    induction cs.dfsHandleMap with
    | nil => rfl
    | cons e m ih => simp [List.filterMap_cons, NativeCall.closedClient, ih]
  · simp only [List.filterMap_cons, NativeCall.closedFile]
    induction cs.dfsHandleMap with
    | nil => rfl
    | cons e m ih => simp [List.filterMap_cons, NativeCall.closedFile, ih]
  · simp [Nat.add_comm]

theorem closeClient_closes_every_file_once_witness :
    mapFind sampleHandler.clientHandleMap 10
        = some { client := 100, dfsHandleMap := [(10, 200), (13, 203)] } ∧
    (sampleHandler.closeClient { id := 10 } 0 (fun k => if k = 10 then -7 else 0)).calls
        = [NativeCall.sectorClose 100 0, NativeCall.fileClose 200 (-7),
           NativeCall.fileClose 203 0] ∧
    ((sampleHandler.closeClient { id := 10 } 0
        (fun k => if k = 10 then -7 else 0)).calls.filterMap NativeCall.closedFile
        = [(200, -7), (203, 0)]) :=
  ⟨by decide, by decide,
    (closeClient_closes_every_file_once sampleHandler { id := 10 } 0
      (fun k => if k = 10 then -7 else 0)
      { client := 100, dfsHandleMap := [(10, 200), (13, 203)] } (by decide)).2.1⟩

/-- C4: `closeClient` with a session id that is not registered returns false, makes no
native call and leaves the handler (session map, file maps, both counters) as it was. -/
theorem closeClient_unknown_session (s : DfsServiceHandler) (clientHandle : ClientHandle)
    (status : Int) (fileStatus : Int → Int)
    (hnone : mapFind s.clientHandleMap clientHandle.id = none) :
    s.closeClient clientHandle status fileStatus = { ret := false, state := s, calls := [] } := by
  simp only [DfsServiceHandler.closeClient, hnone]

theorem closeClient_unknown_session_witness :
    mapFind sampleHandler.clientHandleMap 11 = none ∧
    sampleHandler.closeClient { id := 11 } 0 (fun _ => 0)
      = { ret := false, state := sampleHandler, calls := [] } :=
  ⟨by decide, closeClient_unknown_session sampleHandler { id := 11 } 0 (fun _ => 0) (by decide)⟩

/-- C5: in a state reached from a freshly constructed handler, `closeClient` on a
registered session returns false when the native client close returns a negative
status, and the session is removed all the same: it is gone from the session map right
after the call and after any further calls, where a `login` on the same id returns
false without reaching the native library. -/
theorem closeClient_native_failure (tv_sec : Int) (ops₁ ops₂ : List Op)
    (s₁ s₂ : DfsServiceHandler) (log₁ log₂ : List Event) (clientHandle : ClientHandle)
    (status : Int) (fileStatus : Int → Int) (cs : clientStruct)
    (hrun₁ : run (DfsServiceHandler.new tv_sec) ops₁ = some (s₁, log₁))
    (hcs : mapFind s₁.clientHandleMap clientHandle.id = some cs) (hst : status < 0)
    (hrun₂ : run (s₁.closeClient clientHandle status fileStatus).state ops₂ = some (s₂, log₂)) :
    (s₁.closeClient clientHandle status fileStatus).ret = false ∧
    mapFind (s₁.closeClient clientHandle status fileStatus).state.clientHandleMap
      clientHandle.id = none ∧
    mapFind s₂.clientHandleMap clientHandle.id = none ∧
    ∀ (user password : String) (st : Int),
      s₂.login clientHandle user password st = { ret := false, state := s₂, calls := [] } := by
  have hi : Inv s₁ := run_inv hrun₁ (inv_new tv_sec)
  have hstate := closeClient_found s₁ clientHandle status fileStatus cs hcs
  have hnone : mapFind (s₁.closeClient clientHandle status fileStatus).state.clientHandleMap
      clientHandle.id = none := by
    rw [hstate]
    simp [mapFind_mapErase]
  have hgone : SessionGone (s₁.closeClient clientHandle status fileStatus).state
      clientHandle.id := by
    refine ⟨?_, hnone⟩
    rw [hstate]
    exact hi.1 clientHandle.id cs hcs
  have hnone₂ : mapFind s₂.clientHandleMap clientHandle.id = none :=
    (run_sessionGone hrun₂ hgone).2
  refine ⟨?_, hnone, hnone₂, fun user password st => ?_⟩
  · simp only [DfsServiceHandler.closeClient, hcs, hst, if_true]
  · simp only [DfsServiceHandler.login, hnone₂]

theorem closeClient_native_failure_witness :
    run (DfsServiceHandler.new 10) sampleOps = some (sampleHandler, sampleLog) ∧
    mapFind sampleHandler.clientHandleMap 12
        = some { client := 102, dfsHandleMap := [(11, 201)] } ∧
    (-3 : Int) < 0 ∧
    (sampleHandler.closeClient { id := 12 } (-3) (fun _ => 0)).ret = false ∧
    mapFind (sampleHandler.closeClient { id := 12 } (-3) (fun _ => 0)).state.clientHandleMap
      12 = none :=
  ⟨rfl, by decide, by decide,
    (closeClient_native_failure 10 sampleOps [] sampleHandler
      (sampleHandler.closeClient { id := 12 } (-3) (fun _ => 0)).state sampleLog []
      { id := 12 } (-3) (fun _ => 0) { client := 102, dfsHandleMap := [(11, 201)] }
      rfl (by decide) (by decide) rfl).1,
    (closeClient_native_failure 10 sampleOps [] sampleHandler
      (sampleHandler.closeClient { id := 12 } (-3) (fun _ => 0)).state sampleLog []
      { id := 12 } (-3) (fun _ => 0) { client := 102, dfsHandleMap := [(11, 201)] }
      rfl (by decide) (by decide) rfl).2.1⟩

/-! ## Connecting -/

/-- C9: when the native connect returns a negative status, `init` returns that status
as the handle id and registers nothing: the session map is the one before the call. -/
theorem init_native_failure (s : DfsServiceHandler) (tokens : List String) (client : Nat)
    (status : Int) (htok : 3 ≤ tokens.length) (hst : status < 0) :
    ∃ out, s.init tokens client status = some out ∧ out.ret.id = status ∧
      out.state.clientHandleMap = s.clientHandleMap := by
  match tokens, htok with
  | _ :: _ :: _ :: _, _ =>
    simp only [DfsServiceHandler.init, hst, if_true]
    exact ⟨_, rfl, rfl, rfl⟩

theorem init_native_failure_witness :
    3 ≤ sampleTokens.length ∧ (-5 : Int) < 0 ∧
    ∃ out, sampleHandler.init sampleTokens 103 (-5) = some out ∧ out.ret.id = -5 ∧
      out.state.clientHandleMap = sampleHandler.clientHandleMap :=
  ⟨by decide, by decide, init_native_failure sampleHandler sampleTokens 103 (-5)
    (by decide) (by decide)⟩

/-- C10: in a handler whose counters were seeded with a non-negative value, the id
`init` returns is negative exactly when the native connect failed; when it succeeded
the id is non-negative, the session map holds the new session under it, and a `login`
on it reaches the new native client. -/
theorem init_id_negative_iff_failed (tv_sec : Int) (ops : List Op) (s : DfsServiceHandler)
    (log : List Event) (hseed : 0 ≤ tv_sec)
    (hrun : run (DfsServiceHandler.new tv_sec) ops = some (s, log))
    (tokens : List String) (client : Nat) (status : Int) (htok : 3 ≤ tokens.length) :
    ∃ out, s.init tokens client status = some out ∧
      (out.ret.id < 0 ↔ status < 0) ∧
      (0 ≤ status →
        0 ≤ out.ret.id ∧
        mapFind out.state.clientHandleMap out.ret.id
          = some { client := client, dfsHandleMap := [] } ∧
        ∀ (user password : String) (st : Int),
          (out.state.login out.ret user password st).calls
            = [NativeCall.sectorLogin client user password st]) := by
  have hcid : 0 ≤ s.clientId := le_trans hseed (run_clientId_le hrun)
  match tokens, htok with
  | _ :: ip :: port :: _, _ =>
    by_cases hst : status < 0
    · refine ⟨_, by simp only [DfsServiceHandler.init, hst, if_true]; rfl, ?_, fun h => ?_⟩
      · simp [hst]
      · omega
    · refine ⟨_, by simp only [DfsServiceHandler.init, hst, if_false]; rfl, ?_, fun _ => ?_⟩
      · simp only [hst, iff_false, not_lt]
        exact hcid
      · have hfind : mapFind (mapAssign s.clientHandleMap s.clientId
            { client := client, dfsHandleMap := [] }) s.clientId
            = some { client := client, dfsHandleMap := [] } := by
          simp [mapFind_mapAssign]
        refine ⟨hcid, hfind, fun user password st => ?_⟩
        simp only [DfsServiceHandler.login, hfind]
        split <;> rfl

theorem init_id_negative_iff_failed_witness :
    (0 : Int) ≤ 10 ∧
    run (DfsServiceHandler.new 10) sampleOps = some (sampleHandler, sampleLog) ∧
    3 ≤ sampleTokens.length ∧
    ∃ out, sampleHandler.init sampleTokens 103 0 = some out ∧
      (out.ret.id < 0 ↔ (0 : Int) < 0) ∧
      ((0 : Int) ≤ 0 →
        0 ≤ out.ret.id ∧
        mapFind out.state.clientHandleMap out.ret.id
          = some { client := 103, dfsHandleMap := [] } ∧
        ∀ (user password : String) (st : Int),
          (out.state.login out.ret user password st).calls
            = [NativeCall.sectorLogin 103 user password st]) :=
  ⟨by decide, rfl, by decide,
    init_id_negative_iff_failed 10 sampleOps sampleHandler sampleLog (by decide) rfl
      sampleTokens 103 0 (by decide)⟩

/-! ## Identifiers -/

/-- C1: along every sequence of calls on a freshly constructed handler, the session ids
returned by the successful `init` calls are pairwise different, and so are the file ids
returned by the successful `open` calls. -/
theorem session_and_file_ids_unique (tv_sec : Int) (ops : List Op) (s : DfsServiceHandler)
    (log : List Event) (hrun : run (DfsServiceHandler.new tv_sec) ops = some (s, log)) :
    (log.filterMap Event.initId).Nodup ∧ (log.filterMap Event.openId).Nodup :=
  ⟨(run_initIds hrun).2, (run_openIds hrun).2⟩

theorem session_and_file_ids_unique_witness :
    run (DfsServiceHandler.new 10) sampleOps = some (sampleHandler, sampleLog) ∧
    sampleLog.filterMap Event.initId = [10, 12] ∧
    sampleLog.filterMap Event.openId = [10, 11, 13] ∧
    (sampleLog.filterMap Event.initId).Nodup ∧ (sampleLog.filterMap Event.openId).Nodup :=
  ⟨rfl, by decide, by decide,
    session_and_file_ids_unique 10 sampleOps sampleHandler sampleLog rfl⟩

/-- C8: in every state reached from a freshly constructed handler, an id that no
successful `init` returned is not found: `login`, `logout` and `closeClient` return
false, `open` returns the negative id -1, none of them makes a native call or changes
the handler; and no session closed earlier is still registered. -/
theorem never_allocated_id_not_found (tv_sec : Int) (ops : List Op) (s : DfsServiceHandler)
    (log : List Event) (hrun : run (DfsServiceHandler.new tv_sec) ops = some (s, log)) :
    (∀ clientHandle : ClientHandle, clientHandle.id ∉ log.filterMap Event.initId →
      (∀ (user password : String) (st : Int),
        s.login clientHandle user password st = { ret := false, state := s, calls := [] }) ∧
      (∀ st : Int, s.logout clientHandle st = { ret := false, state := s, calls := [] }) ∧
      (∀ (st : Int) (fileStatus : Int → Int),
        s.closeClient clientHandle st fileStatus
          = { ret := false, state := s, calls := [] }) ∧
      (∀ (filename : String) (mode : Int) (f : Nat) (st : Int),
        s.open clientHandle filename mode f st
          = { ret := { id := -1 }, state := s, calls := [] })) ∧
    (∀ k ∈ log.filterMap Event.closedId, mapFind s.clientHandleMap k = none) := by
  refine ⟨fun clientHandle hid => ?_, fun k hk => ?_⟩
  · have hnone : mapFind s.clientHandleMap clientHandle.id = none := by
      by_contra hne
      rcases run_registered hrun hne with h0 | hmem
      · simp [DfsServiceHandler.new, mapFind] at h0
      · exact hid hmem
    refine ⟨fun user password st => ?_, fun st => ?_, fun st fileStatus => ?_,
      fun filename mode f st => ?_⟩
    · simp only [DfsServiceHandler.login, hnone]
    · simp only [DfsServiceHandler.logout, hnone]
    · simp only [DfsServiceHandler.closeClient, hnone]
    · simp only [DfsServiceHandler.open, hnone]
  · exact (run_closed hrun (inv_new tv_sec) k hk).2

theorem never_allocated_id_not_found_witness :
    run (DfsServiceHandler.new 10) sampleOps = some (sampleHandler, sampleLog) ∧
    (11 : Int) ∉ sampleLog.filterMap Event.initId ∧
    sampleHandler.open { id := 11 } "a" 1 204 0
      = { ret := { id := -1 }, state := sampleHandler, calls := [] } :=
  ⟨rfl, by decide,
    ((never_allocated_id_not_found 10 sampleOps sampleHandler sampleLog rfl).1
      { id := 11 } (by decide)).2.2.2 "a" 1 204 0⟩

/-! ## Files of a closed session, files closed -/

/-- Once `closeClient` has closed a registered session, no file id that was open under
it is found any more, right away and after any further calls: whatever session id is
presented with it, `close` and `write` take a not-found branch and `read` takes one of
its two not-found branches (payload `""` when the presented session is registered, the
one-character payload `'\0'` when it is not), without a native call. -/
theorem closeClient_makes_files_unreachable (tv_sec : Int) (ops₁ ops₂ : List Op)
    (s₁ s₂ : DfsServiceHandler) (log₁ log₂ : List Event) (clientHandle : ClientHandle)
    (status : Int) (fileStatus : Int → Int) (cs : clientStruct) (d : Int) (f : Nat)
    (hrun₁ : run (DfsServiceHandler.new tv_sec) ops₁ = some (s₁, log₁))
    (hcs : mapFind s₁.clientHandleMap clientHandle.id = some cs)
    (hd : mapFind cs.dfsHandleMap d = some f)
    (hrun₂ : run (s₁.closeClient clientHandle status fileStatus).state ops₂ = some (s₂, log₂))
    (other : ClientHandle) :
    (∀ st : Int, s₂.close other { id := d } st = { ret := false, state := s₂, calls := [] }) ∧
    (∀ (buf : String) (offset len seekStatus writeStatus : Int),
      s₂.write other { id := d } buf offset len seekStatus writeStatus
        = { ret := .ok false, state := s₂, calls := [] }) ∧
    (∀ (offset len : Int) (eof : Bool) (seekStatus readStatus : Int) (buf : Nat → Char),
      s₂.read other { id := d } offset len eof seekStatus readStatus buf
        = some { ret := .ok (if (mapFind s₂.clientHandleMap other.id).isSome then ""
                             else String.mk [NUL]),
                 state := s₂, calls := [] }) := by
  have hi : Inv s₁ := run_inv hrun₁ (inv_new tv_sec)
  rw [closeClient_found s₁ clientHandle status fileStatus cs hcs] at hrun₂
  have hgone : FileGone s₂ d := run_fileGone hrun₂ (fileGone_after_closeClient hi hcs hd)
  have hn : ∀ cs', mapFind s₂.clientHandleMap other.id = some cs' →
      mapFind cs'.dfsHandleMap d = none := fun cs' h => hgone.2 other.id cs' h
  exact ⟨fun st => close_not_found s₂ other { id := d } st hn,
    fun buf offset len seekStatus writeStatus =>
      write_not_found s₂ other { id := d } buf offset len seekStatus writeStatus hn,
    fun offset len eof seekStatus readStatus buf =>
      read_not_found s₂ other { id := d } offset len eof seekStatus readStatus buf hn⟩

theorem closeClient_makes_files_unreachable_witness :
    run (DfsServiceHandler.new 10) sampleOps = some (sampleHandler, sampleLog) ∧
    mapFind sampleHandler.clientHandleMap 10
        = some { client := 100, dfsHandleMap := [(10, 200), (13, 203)] } ∧
    mapFind [(10, 200), (13, 203)] 13 = some 203 ∧
    (∀ st : Int,
      (sampleHandler.closeClient { id := 10 } 0 (fun _ => 0)).state.close { id := 12 }
          { id := 13 } st
        = { ret := false, state := (sampleHandler.closeClient { id := 10 } 0 (fun _ => 0)).state,
            calls := [] }) :=
  ⟨rfl, by decide, by decide,
    (closeClient_makes_files_unreachable 10 sampleOps [] sampleHandler
      (sampleHandler.closeClient { id := 10 } 0 (fun _ => 0)).state sampleLog []
      { id := 10 } 0 (fun _ => 0) { client := 100, dfsHandleMap := [(10, 200), (13, 203)] }
      13 203 rfl (by decide) (by decide) rfl { id := 12 }).1⟩

/-- C2, on the code: after `closeClient` on session 10 of `sampleHandler`, which held
file 13, `close` and `write` on file 13 return false under the closed session and
under session 12, and `read` under session 12 returns the empty payload; but `read`
under the closed session id 10 returns a payload of length 1, the character `'\0'`,
not the empty payload. None of these calls reaches the native library. -/
theorem closed_session_read_payload :
    run (DfsServiceHandler.new 10) sampleOps = some (sampleHandler, sampleLog) ∧
    mapFind sampleHandler.clientHandleMap 10
      = some { client := 100, dfsHandleMap := [(10, 200), (13, 203)] } ∧
    mapFind (sampleHandler.closeClient { id := 10 } 0 (fun _ => 0)).state.clientHandleMap 10
      = none ∧
    ((sampleHandler.closeClient { id := 10 } 0 (fun _ => 0)).state.close { id := 10 }
      { id := 13 } 0).ret = false ∧
    ((sampleHandler.closeClient { id := 10 } 0 (fun _ => 0)).state.close { id := 12 }
      { id := 13 } 0).ret = false ∧
    ((sampleHandler.closeClient { id := 10 } 0 (fun _ => 0)).state.write { id := 10 }
      { id := 13 } "x" (-1) 1 0 1).ret = .ok false ∧
    ((sampleHandler.closeClient { id := 10 } 0 (fun _ => 0)).state.write { id := 12 }
      { id := 13 } "x" (-1) 1 0 1).ret = .ok false ∧
    readPayload ((sampleHandler.closeClient { id := 10 } 0 (fun _ => 0)).state.read
      { id := 12 } { id := 13 } (-1) 4096 false 0 0 sampleBuf) = some "" ∧
    readPayload ((sampleHandler.closeClient { id := 10 } 0 (fun _ => 0)).state.read
      { id := 10 } { id := 13 } (-1) 4096 false 0 0 sampleBuf) = some (String.mk [NUL]) ∧
    (readPayload ((sampleHandler.closeClient { id := 10 } 0 (fun _ => 0)).state.read
      { id := 10 } { id := 13 } (-1) 4096 false 0 0 sampleBuf)).map String.length = some 1 ∧
    ((sampleHandler.closeClient { id := 10 } 0 (fun _ => 0)).state.read
      { id := 10 } { id := 13 } (-1) 4096 false 0 0 sampleBuf).map (fun out => out.calls)
      = some [] :=
  ⟨rfl, by decide, by decide, by decide, by decide, rfl, rfl, by decide, by decide, by decide,
    by decide⟩

/-- C6, as stated, fails: in `sampleHandler` session 10 is registered and `open` on it
succeeds with file id 14, yet the `close` that follows returns false, because the
native close returned the negative status -1. -/
theorem open_then_close_counterexample :
    (mapFind sampleHandler.clientHandleMap 10).isSome = true ∧
    (sampleHandler.open { id := 10 } "e" 1 204 0).ret = { id := 14 } ∧
    ((sampleHandler.open { id := 10 } "e" 1 204 0).state.close { id := 10 }
        (sampleHandler.open { id := 10 } "e" 1 204 0).ret (-1)).ret = false := by
  decide

/-- C6, amended: in a state reached from a freshly constructed handler, for a
registered session, a successful `open` followed at once by `close` on the id it
returned makes the native close call on the file just opened and returns true exactly
when that native close returns a non-negative status; in both cases the id is not found
afterwards: whatever session id is presented with it, a further `close` returns false,
`write` returns false and `read` returns its failure payload, without a native call. -/
theorem open_then_close (tv_sec : Int) (ops : List Op) (s : DfsServiceHandler)
    (log : List Event) (hrun : run (DfsServiceHandler.new tv_sec) ops = some (s, log))
    (clientHandle : ClientHandle) (cs : clientStruct)
    (hcs : mapFind s.clientHandleMap clientHandle.id = some cs)
    (filename : String) (mode : Int) (f : Nat) (status : Int) (hst : 0 ≤ status)
    (closeStatus : Int) (other : ClientHandle) :
    let o := s.open clientHandle filename mode f status
    let c := o.state.close clientHandle o.ret closeStatus
    (c.ret = true ↔ 0 ≤ closeStatus) ∧
    c.calls = [NativeCall.fileClose f closeStatus] ∧
    (∀ st : Int, c.state.close other o.ret st = { ret := false, state := c.state, calls := [] }) ∧
    (∀ (buf : String) (offset len seekStatus writeStatus : Int),
      c.state.write other o.ret buf offset len seekStatus writeStatus
        = { ret := .ok false, state := c.state, calls := [] }) ∧
    (∀ (offset len : Int) (eof : Bool) (seekStatus readStatus : Int) (buf : Nat → Char),
      c.state.read other o.ret offset len eof seekStatus readStatus buf
        = some { ret := .ok (if (mapFind c.state.clientHandleMap other.id).isSome then ""
                             else String.mk [NUL]),
                 state := c.state, calls := [] }) := by
  intro o c
  have hi : Inv s := run_inv hrun (inv_new tv_sec)
  have ho : o = _ := open_found s clientHandle filename mode f status cs hcs hst
  have hio : Inv o.state := by
    rw [ho]
    exact (Change.openDone clientHandle.id f).inv hi
  have hcs' : mapFind o.state.clientHandleMap clientHandle.id
      = some { cs with dfsHandleMap := mapAssign cs.dfsHandleMap s.dfsId f } := by
    rw [ho]
    simp [mapFind_mapModify, hcs]
  have hf : mapFind (mapAssign cs.dfsHandleMap s.dfsId f) o.ret.id = some f := by
    rw [ho]
    simp [mapFind_mapAssign]
  have hc : c = _ := close_found o.state clientHandle o.ret closeStatus _ f hcs' hf
  have hgone : FileGone c.state o.ret.id := by
    rw [hc]
    exact fileGone_after_close hio hcs' hf
  have hn : ∀ cs', mapFind c.state.clientHandleMap other.id = some cs' →
      mapFind cs'.dfsHandleMap o.ret.id = none := fun cs' h => hgone.2 other.id cs' h
  refine ⟨?_, ?_, fun st => close_not_found c.state other o.ret st hn,
    fun buf offset len seekStatus writeStatus =>
      write_not_found c.state other o.ret buf offset len seekStatus writeStatus hn,
    fun offset len eof seekStatus readStatus buf =>
      read_not_found c.state other o.ret offset len eof seekStatus readStatus buf hn⟩
  · rw [hc]
    simp
  · rw [hc]

theorem open_then_close_witness :
    run (DfsServiceHandler.new 10) sampleOps = some (sampleHandler, sampleLog) ∧
    mapFind sampleHandler.clientHandleMap 10
        = some { client := 100, dfsHandleMap := [(10, 200), (13, 203)] } ∧
    (0 : Int) ≤ 0 ∧
    ((sampleHandler.open { id := 10 } "e" 1 204 0).state.close { id := 10 }
        (sampleHandler.open { id := 10 } "e" 1 204 0).ret 0).calls
      = [NativeCall.fileClose 204 0] :=
  ⟨rfl, by decide, by decide,
    (open_then_close 10 sampleOps sampleHandler sampleLog rfl { id := 10 }
      { client := 100, dfsHandleMap := [(10, 200), (13, 203)] } (by decide)
      "e" 1 204 0 (by decide) 0 { id := 10 }).2.1⟩

/-- C7: in a state reached from a freshly constructed handler, one `close` on a
registered file id makes the native close call on its handle and, whatever status that
native close returned, a second `close` on the same file id, under the same or any
other session id, returns false, makes no native call and changes nothing. -/
theorem close_twice (tv_sec : Int) (ops : List Op) (s : DfsServiceHandler)
    (log : List Event) (hrun : run (DfsServiceHandler.new tv_sec) ops = some (s, log))
    (clientHandle : ClientHandle) (dfsHandle : DfsHandle) (cs : clientStruct) (f : Nat)
    (hcs : mapFind s.clientHandleMap clientHandle.id = some cs)
    (hf : mapFind cs.dfsHandleMap dfsHandle.id = some f)
    (status status₂ : Int) (other : ClientHandle) :
    (s.close clientHandle dfsHandle status).calls = [NativeCall.fileClose f status] ∧
    (s.close clientHandle dfsHandle status).state.close clientHandle dfsHandle status₂
      = { ret := false, state := (s.close clientHandle dfsHandle status).state, calls := [] } ∧
    (s.close clientHandle dfsHandle status).state.close other dfsHandle status₂
      = { ret := false, state := (s.close clientHandle dfsHandle status).state, calls := [] } := by
  have hi : Inv s := run_inv hrun (inv_new tv_sec)
  have hc := close_found s clientHandle dfsHandle status cs f hcs hf
  have hgone : FileGone (s.close clientHandle dfsHandle status).state dfsHandle.id := by
    rw [hc]
    exact fileGone_after_close hi hcs hf
  refine ⟨by rw [hc], ?_, ?_⟩
  · exact close_not_found _ clientHandle dfsHandle status₂
      (fun cs' h => hgone.2 clientHandle.id cs' h)
  · exact close_not_found _ other dfsHandle status₂ (fun cs' h => hgone.2 other.id cs' h)

theorem close_twice_witness :
    run (DfsServiceHandler.new 10) sampleOps = some (sampleHandler, sampleLog) ∧
    mapFind sampleHandler.clientHandleMap 10
        = some { client := 100, dfsHandleMap := [(10, 200), (13, 203)] } ∧
    mapFind [(10, 200), (13, 203)] 13 = some 203 ∧
    (sampleHandler.close { id := 10 } { id := 13 } (-1)).calls
      = [NativeCall.fileClose 203 (-1)] ∧
    (sampleHandler.close { id := 10 } { id := 13 } (-1)).state.close { id := 10 }
        { id := 13 } 0
      = { ret := false, state := (sampleHandler.close { id := 10 } { id := 13 } (-1)).state,
          calls := [] } :=
  ⟨rfl, by decide, by decide,
    (close_twice 10 sampleOps sampleHandler sampleLog rfl { id := 10 } { id := 13 }
      { client := 100, dfsHandleMap := [(10, 200), (13, 203)] } 203 (by decide) (by decide)
      (-1) 0 { id := 12 }).1,
    (close_twice 10 sampleOps sampleHandler sampleLog rfl { id := 10 } { id := 13 }
      { client := 100, dfsHandleMap := [(10, 200), (13, 203)] } 203 (by decide) (by decide)
      (-1) 0 { id := 12 }).2.1⟩

/-! ## Counters and failed opens -/

/-- C11, as stated, fails: an `open` on the unknown session id 11 leaves the file
counter of `sampleHandler` at 14. -/
theorem open_unknown_session_keeps_counter :
    mapFind sampleHandler.clientHandleMap 11 = none ∧
    sampleHandler.dfsId = 14 ∧
    (sampleHandler.open { id := 11 } "a" 1 204 0).state.dfsId = 14 := by
  decide

/-- C11, amended: every `init` call (on a connection target of at least three tokens)
increases the session counter by exactly one, whether the native connect succeeds or
fails, and leaves the file counter alone; every `open` call on a registered session id
increases the file counter by exactly one, whether the native open succeeds or fails,
and leaves the session counter alone; an `open` call on an unknown session id leaves
both counters unchanged. -/
theorem counters_advance (s : DfsServiceHandler) (tokens : List String) (client : Nat)
    (status : Int) (clientHandle : ClientHandle) (filename : String) (mode : Int) (f : Nat)
    (openStatus : Int) (htok : 3 ≤ tokens.length) :
    (∃ out, s.init tokens client status = some out ∧
      out.state.clientId = s.clientId + 1 ∧ out.state.dfsId = s.dfsId) ∧
    (s.open clientHandle filename mode f openStatus).state.dfsId
      = (if (mapFind s.clientHandleMap clientHandle.id).isSome then s.dfsId + 1 else s.dfsId) ∧
    (s.open clientHandle filename mode f openStatus).state.clientId = s.clientId := by
  refine ⟨?_, ?_, ?_⟩
  · match tokens, htok with
    | _ :: _ :: _ :: _, _ =>
      by_cases hst : status < 0
      · exact ⟨_, by simp only [DfsServiceHandler.init, hst, if_true]; rfl, rfl, rfl⟩
      · exact ⟨_, by simp only [DfsServiceHandler.init, hst, if_false]; rfl, rfl, rfl⟩
  · unfold DfsServiceHandler.open
    cases hcs : mapFind s.clientHandleMap clientHandle.id with
    | none => simp
    | some cs => by_cases hst : openStatus < 0 <;> simp [hst]
  · unfold DfsServiceHandler.open
    cases hcs : mapFind s.clientHandleMap clientHandle.id with
    | none => simp
    | some cs => by_cases hst : openStatus < 0 <;> simp [hst]

theorem counters_advance_witness :
    3 ≤ sampleTokens.length ∧
    (∃ out, sampleHandler.init sampleTokens 103 (-5) = some out ∧
      out.state.clientId = sampleHandler.clientId + 1 ∧ out.state.dfsId = sampleHandler.dfsId) ∧
    (sampleHandler.open { id := 10 } "c" 1 202 (-2)).state.dfsId = 15 :=
  ⟨by decide,
    (counters_advance sampleHandler sampleTokens 103 (-5) { id := 10 } "c" 1 202 (-2)
      (by decide)).1,
    (counters_advance sampleHandler sampleTokens 103 (-5) { id := 10 } "c" 1 202 (-2)
      (by decide)).2.1⟩

/-- C12: a failed `open` registers nothing and returns a negative id (the method has no
way to raise): with an unknown session id it makes no native call, returns -1 and
leaves the handler as it was; when the native open returns a negative status it returns
that status and the session map, with every session's file map, is unchanged. -/
theorem open_failure_registers_nothing (s : DfsServiceHandler) (clientHandle : ClientHandle)
    (filename : String) (mode : Int) (f : Nat) (status : Int) :
    (mapFind s.clientHandleMap clientHandle.id = none →
      s.open clientHandle filename mode f status
        = { ret := { id := -1 }, state := s, calls := [] }) ∧
    (∀ cs, mapFind s.clientHandleMap clientHandle.id = some cs → status < 0 →
      (s.open clientHandle filename mode f status).ret.id = status ∧
      (s.open clientHandle filename mode f status).ret.id < 0 ∧
      (s.open clientHandle filename mode f status).state.clientHandleMap = s.clientHandleMap ∧
      (s.open clientHandle filename mode f status).calls
        = [NativeCall.fileOpen f filename mode status]) := by
  refine ⟨fun hnone => ?_, fun cs hcs hst => ?_⟩
  · simp only [DfsServiceHandler.open, hnone]
  · have ho : s.open clientHandle filename mode f status
        = { ret := { id := status }, state := { s with dfsId := s.dfsId + 1 },
            calls := [NativeCall.fileOpen f filename mode status] } := by
      simp only [DfsServiceHandler.open, hcs, hst, if_true]
    rw [ho]
    exact ⟨rfl, hst, rfl, rfl⟩

theorem open_failure_registers_nothing_witness :
    mapFind sampleHandler.clientHandleMap 11 = none ∧
    sampleHandler.open { id := 11 } "a" 1 204 0
      = { ret := { id := -1 }, state := sampleHandler, calls := [] } ∧
    mapFind sampleHandler.clientHandleMap 10
      = some { client := 100, dfsHandleMap := [(10, 200), (13, 203)] } ∧
    (-2 : Int) < 0 ∧
    (sampleHandler.open { id := 10 } "c" 1 202 (-2)).ret.id = -2 :=
  ⟨by decide,
    (open_failure_registers_nothing sampleHandler { id := 11 } "a" 1 204 0).1 (by decide),
    by decide, by decide,
    ((open_failure_registers_nothing sampleHandler { id := 10 } "c" 1 202 (-2)).2
      { client := 100, dfsHandleMap := [(10, 200), (13, 203)] } (by decide) (by decide)).1⟩

/-! ## Listing, and the calls that raise -/

/-- C13: for a registered session and a native listing that succeeds with nodes
`n_1..n_k`, `listFiles` (called, as the dispatcher does, with an empty result vector)
returns exactly `k` records in the same order, the `i`-th one being the projection of
`n_i`: length = size, isdir = directory flag, modification_time = timestamp,
path = name. -/
theorem listFiles_projects_nodes (s : DfsServiceHandler) (clientHandle : ClientHandle)
    (path : String) (status : Int) (filelist : List SNode) (cs : clientStruct)
    (hcs : mapFind s.clientHandleMap clientHandle.id = some cs) (hst : 0 ≤ status) :
    ∃ records, (s.listFiles [] clientHandle path status filelist).ret = .ok records ∧
      records.length = filelist.length ∧
      records = filelist.map (fun n =>
        { length := n.m_llSize, isdir := n.m_bIsDir, modification_time := n.m_llTimeStamp,
          path := n.m_strName }) ∧
      ∀ (i : Nat) (n : SNode), filelist[i]? = some n →
        records[i]? = some { length := n.m_llSize, isdir := n.m_bIsDir,
                             modification_time := n.m_llTimeStamp, path := n.m_strName } := by
  have hneg : ¬ status < 0 := by omega
  refine ⟨filelist.map DfsServiceHandler.populateFileStatus, ?_, ?_, rfl, fun i n hi => ?_⟩
  · simp only [DfsServiceHandler.listFiles, hcs, hneg, if_false, List.nil_append]
  · simp
  · simp [List.getElem?_map, hi, DfsServiceHandler.populateFileStatus]

theorem listFiles_projects_nodes_witness :
    mapFind sampleHandler.clientHandleMap 10
      = some { client := 100, dfsHandleMap := [(10, 200), (13, 203)] } ∧
    (0 : Int) ≤ 2 ∧
    ∃ records,
      (sampleHandler.listFiles [] { id := 10 } "/" 2
        [{ m_llSize := 5, m_bIsDir := false, m_llTimeStamp := 77, m_strName := "a" },
         { m_llSize := 0, m_bIsDir := true, m_llTimeStamp := 78, m_strName := "b" }]).ret
        = .ok records ∧
      records.length = 2 ∧
      records = [{ length := 5, isdir := false, modification_time := 77, path := "a" },
                 { length := 0, isdir := true, modification_time := 78, path := "b" }] :=
  ⟨by decide, by decide,
    (listFiles_projects_nodes sampleHandler { id := 10 } "/" 2
      [{ m_llSize := 5, m_bIsDir := false, m_llTimeStamp := 77, m_strName := "a" },
       { m_llSize := 0, m_bIsDir := true, m_llTimeStamp := 78, m_strName := "b" }]
      { client := 100, dfsHandleMap := [(10, 200), (13, 203)] } (by decide) (by decide)).imp
      (fun _ h => ⟨h.1, h.2.1, h.2.2.1⟩)⟩

theorem comma_return_code (a : String) (status : Int) :
    a ++ ", return code=" ++ toString status
      = a ++ ", " ++ "return code=" ++ toString status := by
  have h : (", return code=" : String) = ", " ++ "return code=" := by decide
  rw [h]
  simp only [String.append_assoc]

/-- C14: for `mkdir`, `move` and `remove` on a registered session, the call returns true
when the native status is non-negative and raises `DfsServiceIOException` when it is
negative, with a message that ends in `return code=<status>`; it never returns false. -/
theorem mkdir_move_remove_raise_on_failure (s : DfsServiceHandler)
    (clientHandle : ClientHandle) (cs : clientStruct)
    (hcs : mapFind s.clientHandleMap clientHandle.id = some cs)
    (path oldpath newpath : String) (recursive : Bool) (status : Int) :
    (0 ≤ status →
      (s.mkdir clientHandle path status).ret = .ok true ∧
      (s.move clientHandle oldpath newpath status).ret = .ok true ∧
      (s.remove clientHandle path recursive status).ret = .ok true) ∧
    (status < 0 →
      (∃ pre, (s.mkdir clientHandle path status).ret
        = .error { message := pre ++ "return code=" ++ toString status }) ∧
      (∃ pre, (s.move clientHandle oldpath newpath status).ret
        = .error { message := pre ++ "return code=" ++ toString status }) ∧
      (∃ pre, (s.remove clientHandle path recursive status).ret
        = .error { message := pre ++ "return code=" ++ toString status })) ∧
    (s.mkdir clientHandle path status).ret ≠ .ok false ∧
    (s.move clientHandle oldpath newpath status).ret ≠ .ok false ∧
    (s.remove clientHandle path recursive status).ret ≠ .ok false := by
  by_cases hst : status < 0
  · have hmk : (s.mkdir clientHandle path status).ret
        = .error { message := "Failed to create " ++ path ++ ", " ++ "return code=" ++
                     toString status } := by
      simp only [DfsServiceHandler.mkdir, hcs, hst, if_true, comma_return_code]
    have hmv : (s.move clientHandle oldpath newpath status).ret
        = .error { message := "Failed to move " ++ oldpath ++ " to " ++ newpath ++ ", " ++
                     "return code=" ++ toString status } := by
      simp only [DfsServiceHandler.move, hcs, hst, if_true, comma_return_code]
    have hrm : (s.remove clientHandle path recursive status).ret
        = .error { message := "Failed to remove " ++ path ++ ", " ++ "return code=" ++
                     toString status } := by
      simp only [DfsServiceHandler.remove, hcs, hst, if_true, comma_return_code]
    refine ⟨fun h => absurd h (by omega), fun _ => ⟨⟨_, hmk⟩, ⟨_, hmv⟩, ⟨_, hrm⟩⟩, ?_, ?_, ?_⟩
    · rw [hmk]; exact fun h => nomatch h
    · rw [hmv]; exact fun h => nomatch h
    · rw [hrm]; exact fun h => nomatch h
  · have hmk : (s.mkdir clientHandle path status).ret = .ok true := by
      simp only [DfsServiceHandler.mkdir, hcs, hst, if_false]
    have hmv : (s.move clientHandle oldpath newpath status).ret = .ok true := by
      simp only [DfsServiceHandler.move, hcs, hst, if_false]
    have hrm : (s.remove clientHandle path recursive status).ret = .ok true := by
      simp only [DfsServiceHandler.remove, hcs, hst, if_false]
    refine ⟨fun _ => ⟨hmk, hmv, hrm⟩, fun h => absurd h hst, ?_, ?_, ?_⟩
    · rw [hmk]; simp
    · rw [hmv]; simp
    · rw [hrm]; simp

theorem mkdir_move_remove_raise_on_failure_witness :
    mapFind sampleHandler.clientHandleMap 10
      = some { client := 100, dfsHandleMap := [(10, 200), (13, 203)] } ∧
    (-3 : Int) < 0 ∧
    (sampleHandler.mkdir { id := 10 } "d" (-3)).ret
      = .error { message := "Failed to create d, return code=-3" } ∧
    (∃ pre, (sampleHandler.mkdir { id := 10 } "d" (-3)).ret
      = .error { message := pre ++ "return code=" ++ toString (-3 : Int) }) ∧
    (0 : Int) ≤ 0 ∧
    (sampleHandler.remove { id := 10 } "d" true 0).ret = .ok true :=
  ⟨by decide, by decide, rfl,
    ((mkdir_move_remove_raise_on_failure sampleHandler { id := 10 }
      { client := 100, dfsHandleMap := [(10, 200), (13, 203)] } (by decide)
      "d" "d" "e" true (-3)).2.1 (by decide)).1,
    by decide,
    ((mkdir_move_remove_raise_on_failure sampleHandler { id := 10 }
      { client := 100, dfsHandleMap := [(10, 200), (13, 203)] } (by decide)
      "d" "d" "e" true 0).1 (by decide)).2.2⟩

/-- C15: the `recursive` flag of `remove` has no effect: with either value the call
makes the same native call, hands back the same result (value or raised error) and
leaves the same handler. -/
theorem remove_ignores_recursive (s : DfsServiceHandler) (clientHandle : ClientHandle)
    (path : String) (status : Int) :
    s.remove clientHandle path true status = s.remove clientHandle path false status ∧
    (s.remove clientHandle path true status).calls
      = (s.remove clientHandle path false status).calls ∧
    (s.remove clientHandle path true status).ret
      = (s.remove clientHandle path false status).ret ∧
    (s.remove clientHandle path true status).state
      = (s.remove clientHandle path false status).state :=
  ⟨rfl, rfl, rfl, rfl⟩

/-! ## Reading -/

/-- C16, on the code: `read` with the unknown session id 11 hands back a payload of
length 1 (the character `'\0'`), while `read` with a registered session and the unknown
file id 11 hands back a payload of length 0. -/
theorem read_unknown_session_payload_length :
    mapFind sampleHandler.clientHandleMap 11 = none ∧
    (readPayload (sampleHandler.read { id := 11 } { id := 10 } (-1) 4096 false 0 0
      sampleBuf)).map String.length = some 1 ∧
    readPayload (sampleHandler.read { id := 11 } { id := 10 } (-1) 4096 false 0 0 sampleBuf)
      = some (String.mk [NUL]) ∧
    (readPayload (sampleHandler.read { id := 10 } { id := 11 } (-1) 4096 false 0 0
      sampleBuf)).map String.length = some 0 := by
  decide

/-- C18: for a registered file whose native end-of-file flag is set, `read` returns the
empty payload without raising, its only native call is the end-of-file test (no seek,
no read), and the handler is unchanged; so any number of repeated reads each return the
empty payload and leave the handler as it was. -/
theorem read_at_eof_idempotent (s : DfsServiceHandler) (clientHandle : ClientHandle)
    (dfsHandle : DfsHandle) (cs : clientStruct) (f : Nat)
    (hcs : mapFind s.clientHandleMap clientHandle.id = some cs)
    (hf : mapFind cs.dfsHandleMap dfsHandle.id = some f)
    (offset len seekStatus readStatus : Int) (buf : Nat → Char) (n : Nat) :
    s.read clientHandle dfsHandle offset len true seekStatus readStatus buf
      = some { ret := .ok "", state := s, calls := [NativeCall.fileEof f true] } ∧
    ∃ log,
      run s (List.replicate n
        (Op.callRead clientHandle dfsHandle offset len true seekStatus readStatus buf))
        = some (s, log) ∧
      log.length = n ∧
      ∀ e ∈ log, e.ret = Response.data "" ∧ e.calls = [NativeCall.fileEof f true] := by
  have hread : s.read clientHandle dfsHandle offset len true seekStatus readStatus buf
      = some { ret := .ok "", state := s, calls := [NativeCall.fileEof f true] } := by
    simp only [DfsServiceHandler.read, hcs, hf, if_true]
  refine ⟨hread, ?_⟩
  induction n with
  | zero => exact ⟨[], rfl, rfl, fun e he => by simp at he⟩
  | succ n ih =>
    obtain ⟨log, hrun, hlen, hall⟩ := ih
    refine ⟨{ op := Op.callRead clientHandle dfsHandle offset len true seekStatus readStatus buf,
              ret := Response.data "", calls := [NativeCall.fileEof f true] } :: log,
      ?_, by simp [hlen], fun e he => ?_⟩
    · simp only [List.replicate_succ, run, step, hread, Option.map_some',
        Outcome.respondOrRaise, hrun]
    · rcases List.mem_cons.mp he with rfl | he'
      · exact ⟨rfl, rfl⟩
      · exact hall e he'

theorem read_at_eof_idempotent_witness :
    mapFind sampleHandler.clientHandleMap 10
      = some { client := 100, dfsHandleMap := [(10, 200), (13, 203)] } ∧
    mapFind [(10, 200), (13, 203)] 13 = some 203 ∧
    sampleHandler.read { id := 10 } { id := 13 } 0 5 true 0 0 sampleBuf
      = some { ret := .ok "", state := sampleHandler, calls := [NativeCall.fileEof 203 true] } :=
  ⟨by decide, by decide,
    (read_at_eof_idempotent sampleHandler { id := 10 } { id := 13 }
      { client := 100, dfsHandleMap := [(10, 200), (13, 203)] } 203 (by decide) (by decide)
      0 5 0 0 sampleBuf 3).1⟩

/-- C20, on the code: the native read places the three bytes `a`, `'\0'`, `b` in a
buffer of four and reports 3, and `read` hands back the one-byte payload `a`. -/
theorem read_truncates_at_zero_byte :
    mapFind sampleHandler.clientHandleMap 10
      = some { client := 100, dfsHandleMap := [(10, 200), (13, 203)] } ∧
    (List.range 3).map sampleBuf = ['a', NUL, 'b'] ∧
    readPayload (sampleHandler.read { id := 10 } { id := 10 } (-1) 4 false 0 3 sampleBuf)
      = some "a" ∧
    (readPayload (sampleHandler.read { id := 10 } { id := 10 } (-1) 4 false 0 3
      sampleBuf)).map String.length = some 1 := by
  decide

/-- C17, on the code: on a registered file that is not at end-of-file, `read` at the
explicit offset 0 raises `DfsServiceIOException` when the seek returns -4, and hands
back no payload; when instead the seek succeeds and the native read returns -9 it
returns the empty payload. -/
theorem read_failed_seek_raises :
    mapFind sampleHandler.clientHandleMap 10
      = some { client := 100, dfsHandleMap := [(10, 200), (13, 203)] } ∧
    readRaised (sampleHandler.read { id := 10 } { id := 10 } 0 5 false (-4) 0 sampleBuf)
      = some "Failed to seek to offset 0, return code=-4" ∧
    readPayload (sampleHandler.read { id := 10 } { id := 10 } 0 5 false (-4) 0 sampleBuf)
      = none ∧
    (sampleHandler.read { id := 10 } { id := 10 } 0 5 false (-4) 0 sampleBuf).map
        (fun out => out.calls)
      = some [NativeCall.fileEof 200 false, NativeCall.fileSeekg 200 0 (-4)] ∧
    readPayload (sampleHandler.read { id := 10 } { id := 10 } 0 5 false 0 (-9) sampleBuf)
      = some "" := by
  decide

theorem readWithSlack_of_read (s : DfsServiceHandler) (clientHandle : ClientHandle)
    (dfsHandle : DfsHandle) (offset len : Int) (eof : Bool) (seekStatus readStatus : Int)
    (buf : Nat → Char) (out : Outcome (Except DfsServiceIOException String))
    (h : s.read clientHandle dfsHandle offset len eof seekStatus readStatus buf = some out) :
    s.readWithSlack clientHandle dfsHandle offset len eof seekStatus readStatus buf
      = some out := by
  cases hcs : mapFind s.clientHandleMap clientHandle.id with
  | none =>
    simp only [DfsServiceHandler.read, hcs] at h
    simp only [DfsServiceHandler.readWithSlack, hcs, h]
  | some cs =>
    cases hf : mapFind cs.dfsHandleMap dfsHandle.id with
    | none =>
      simp only [DfsServiceHandler.read, hcs, hf] at h
      simp only [DfsServiceHandler.readWithSlack, hcs, hf, h]
    | some f =>
      by_cases he : eof = true
      · simp only [DfsServiceHandler.read, hcs, hf, he, if_true] at h
        simp only [DfsServiceHandler.readWithSlack, hcs, hf, he, if_true, h]
      · by_cases hseek : 0 ≤ offset ∧ seekStatus < 0
        · simp only [DfsServiceHandler.read, hcs, hf, he, hseek, if_true, if_false,
            and_self] at h
          simp only [DfsServiceHandler.readWithSlack, hcs, hf, he, hseek, if_true, if_false,
            and_self, h]
        · by_cases hlen : len < 0
          · simp [DfsServiceHandler.read, hcs, hf, he, hseek, hlen] at h
          · by_cases hrs : readStatus < 0
            · simp only [DfsServiceHandler.read, hcs, hf, he, hseek, hlen, hrs, if_true,
                if_false] at h
              simp only [DfsServiceHandler.readWithSlack, hcs, hf, he, hseek, hlen, hrs,
                if_true, if_false, h]
            · by_cases hfit : readStatus < len
              · simp only [DfsServiceHandler.read, hcs, hf, he, hseek, hlen, hrs, hfit,
                  if_true, if_false] at h
                simp only [DfsServiceHandler.readWithSlack, hcs, hf, he, hseek, hlen, hrs,
                  hfit, if_true, if_false, h]
              · simp [DfsServiceHandler.read, hcs, hf, he, hseek, hlen, hrs, hfit] at h

/-- C21: `write` on a registered session and file seeks to the offset first exactly
when `offset >= 0`, raises `DfsServiceIOException` when that seek or the native write
returns a negative status, and otherwise returns true; with an unknown session id or
an unknown file id it returns false, without a native call and without raising. The
handler is unchanged throughout. -/
theorem write_seeks_then_writes (s : DfsServiceHandler) (clientHandle : ClientHandle)
    (dfsHandle : DfsHandle) (buf : String) (offset len seekStatus writeStatus : Int) :
    (∀ cs f, mapFind s.clientHandleMap clientHandle.id = some cs →
        mapFind cs.dfsHandleMap dfsHandle.id = some f →
      (0 ≤ offset → seekStatus < 0 →
        s.write clientHandle dfsHandle buf offset len seekStatus writeStatus
          = { ret := .error { message := "Failed to seek to offset " ++ toString offset ++
                      ", return code=" ++ toString seekStatus },
              state := s, calls := [NativeCall.fileSeekp f offset seekStatus] }) ∧
      (0 ≤ offset → 0 ≤ seekStatus → writeStatus < 0 →
        s.write clientHandle dfsHandle buf offset len seekStatus writeStatus
          = { ret := .error { message := "Write failed, return code=" ++ toString writeStatus },
              state := s,
              calls := [NativeCall.fileSeekp f offset seekStatus,
                        NativeCall.fileWrite f buf len writeStatus] }) ∧
      (0 ≤ offset → 0 ≤ seekStatus → 0 ≤ writeStatus →
        s.write clientHandle dfsHandle buf offset len seekStatus writeStatus
          = { ret := .ok true, state := s,
              calls := [NativeCall.fileSeekp f offset seekStatus,
                        NativeCall.fileWrite f buf len writeStatus] }) ∧
      (offset < 0 → writeStatus < 0 →
        s.write clientHandle dfsHandle buf offset len seekStatus writeStatus
          = { ret := .error { message := "Write failed, return code=" ++ toString writeStatus },
              state := s, calls := [NativeCall.fileWrite f buf len writeStatus] }) ∧
      (offset < 0 → 0 ≤ writeStatus →
        s.write clientHandle dfsHandle buf offset len seekStatus writeStatus
          = { ret := .ok true, state := s,
              calls := [NativeCall.fileWrite f buf len writeStatus] })) ∧
    (mapFind s.clientHandleMap clientHandle.id = none →
      s.write clientHandle dfsHandle buf offset len seekStatus writeStatus
        = { ret := .ok false, state := s, calls := [] }) ∧
    (∀ cs, mapFind s.clientHandleMap clientHandle.id = some cs →
        mapFind cs.dfsHandleMap dfsHandle.id = none →
      s.write clientHandle dfsHandle buf offset len seekStatus writeStatus
        = { ret := .ok false, state := s, calls := [] }) := by
  refine ⟨fun cs f hcs hf => ⟨?_, ?_, ?_, ?_, ?_⟩, fun hnone => ?_, fun cs hcs hf => ?_⟩
  · intro ho hs
    simp [DfsServiceHandler.write, hcs, hf, ho, hs]
  · intro ho hs hw
    have hs' : ¬ seekStatus < 0 := by omega
    simp [DfsServiceHandler.write, hcs, hf, ho, hs', hw]
  · intro ho hs hw
    have hs' : ¬ seekStatus < 0 := by omega
    have hw' : ¬ writeStatus < 0 := by omega
    simp [DfsServiceHandler.write, hcs, hf, ho, hs', hw']
  · intro ho hw
    have ho' : ¬ 0 ≤ offset := by omega
    simp [DfsServiceHandler.write, hcs, hf, ho', hw]
  · intro ho hw
    have ho' : ¬ 0 ≤ offset := by omega
    have hw' : ¬ writeStatus < 0 := by omega
    simp [DfsServiceHandler.write, hcs, hf, ho', hw']
  · simp only [DfsServiceHandler.write, hnone]
  · simp only [DfsServiceHandler.write, hcs, hf]

theorem write_seeks_then_writes_witness :
    mapFind sampleHandler.clientHandleMap 10
      = some { client := 100, dfsHandleMap := [(10, 200), (13, 203)] } ∧
    mapFind [(10, 200), (13, 203)] 13 = some 203 ∧
    (sampleHandler.write { id := 10 } { id := 13 } "hello" 0 5 0 5
      = { ret := .ok true, state := sampleHandler,
          calls := [NativeCall.fileSeekp 203 0 0, NativeCall.fileWrite 203 "hello" 5 5] }) ∧
    (sampleHandler.write { id := 10 } { id := 13 } "hello" (-1) 5 0 (-6)
      = { ret := .error { message := "Write failed, return code=" ++ toString (-6 : Int) },
          state := sampleHandler, calls := [NativeCall.fileWrite 203 "hello" 5 (-6)] }) ∧
    mapFind sampleHandler.clientHandleMap 11 = none ∧
    (sampleHandler.write { id := 11 } { id := 13 } "hello" 0 5 0 5
      = { ret := .ok false, state := sampleHandler, calls := [] }) :=
  ⟨by decide, by decide,
    ((write_seeks_then_writes sampleHandler { id := 10 } { id := 13 } "hello" 0 5 0 5).1
      { client := 100, dfsHandleMap := [(10, 200), (13, 203)] } 203 (by decide)
      (by decide)).2.2.1 (by decide) (by decide) (by decide),
    ((write_seeks_then_writes sampleHandler { id := 10 } { id := 13 } "hello" (-1) 5 0 (-6)).1
      { client := 100, dfsHandleMap := [(10, 200), (13, 203)] } 203 (by decide)
      (by decide)).2.2.2.1 (by decide) (by decide),
    by decide,
    (write_seeks_then_writes sampleHandler { id := 11 } { id := 13 } "hello" 0 5 0 5).2.1
      (by decide)⟩

/-! ## The listening port -/

theorem digitChar_toNat (d : Nat) (hd : d < 10) : (Nat.digitChar d).toNat = 48 + d := by
  interval_cases d <;> rfl

theorem atoiDigits_digits (ds : List Nat) : ∀ acc : Nat, (∀ d ∈ ds, d < 10) →
    atoiDigits (ds.map Nat.digitChar) (acc : Int)
      = ((ds.foldl (fun a d => a * 10 + d) acc : Nat) : Int) := by
  induction ds with
  | nil => intro acc _; rfl
  | cons d ds ih =>
    intro acc h
    have hd : d < 10 := h d (List.mem_cons_self d ds)
    have hc := digitChar_toNat d hd
    have hrange : 48 ≤ (Nat.digitChar d).toNat ∧ (Nat.digitChar d).toNat ≤ 57 := by omega
    simp only [List.map_cons, atoiDigits, hrange, and_self, if_true, List.foldl_cons]
    have hacc : (acc : Int) * 10 + (((Nat.digitChar d).toNat : Int) - 48)
        = ((acc * 10 + d : Nat) : Int) := by
      rw [hc]; push_cast; ring
    rw [hacc]
    exact ih (acc * 10 + d) (fun e he => h e (List.mem_cons_of_mem d he))

theorem strtol_decimalString (ds : List Nat) (hds : ∀ d ∈ ds, d < 10)
    (hv : decimalValue ds < 9223372036854775808) :
    strtol (decimalString ds) = (decimalValue ds : Int) := by
  have hdigits := atoiDigits_digits ds 0 hds
  have hvalue : (match (ds.map Nat.digitChar).dropWhile isspace with
      | '-' :: cs => - atoiDigits cs 0
      | '+' :: cs => atoiDigits cs 0
      | cs => atoiDigits cs 0) = (decimalValue ds : Int) := by
    cases ds with
    | nil => rfl
    | cons d ds =>
      have hd : d < 10 := hds d (List.mem_cons_self d ds)
      have hdrop : ((d :: ds).map Nat.digitChar).dropWhile isspace
          = Nat.digitChar d :: ds.map Nat.digitChar := by
        have : isspace (Nat.digitChar d) = false := by interval_cases d <;> rfl
        simp [List.dropWhile, this]
      rw [hdrop]
      have hne : Nat.digitChar d ≠ '-' ∧ Nat.digitChar d ≠ '+' := by
        interval_cases d <;> decide
      have hmatch : (match Nat.digitChar d :: ds.map Nat.digitChar with
          | '-' :: cs => - atoiDigits cs 0
          | '+' :: cs => atoiDigits cs 0
          | cs => atoiDigits cs 0)
          = atoiDigits (Nat.digitChar d :: ds.map Nat.digitChar) 0 := by
        split
        · rename_i heq
          exact absurd (List.cons.inj heq).1 hne.1
        · rename_i heq
          exact absurd (List.cons.inj heq).1 hne.2
        · rfl
      rw [hmatch]
      simpa [decimalValue] using hdigits
  have hunfold : strtol (decimalString ds)
      = max (-9223372036854775808) (min 9223372036854775807 (decimalValue ds : Int)) := by
    unfold strtol decimalString
    have htl : (String.mk (ds.map Nat.digitChar)).toList = ds.map Nat.digitChar := rfl
    simp only [htl]
    rw [hvalue]
  rw [hunfold]
  have h0 : (0 : Int) ≤ (decimalValue ds : Int) := Int.natCast_nonneg _
  have h1 : (decimalValue ds : Int) < 9223372036854775808 := by exact_mod_cast hv
  omega

theorem atoi_decimalString (ds : List Nat) (hds : ∀ d ∈ ds, d < 10)
    (hv : decimalValue ds < 2147483648) :
    atoi (decimalString ds) = (decimalValue ds : Int) := by
  unfold atoi longToInt
  rw [strtol_decimalString ds hds (by omega)]
  have h1 : (decimalValue ds : Int) < 2147483648 := by exact_mod_cast hv
  have h0 : (0 : Int) ≤ (decimalValue ds : Int) := Int.natCast_nonneg _
  omega

/-- C22: `main` listens on 9090 by default and on the integer value of the second
argument when the first argument is exactly `-p` and a second argument is present:
that value is what the C library's `atoi` computes, which for a decimal numeral below
2^31 is the number the numeral denotes; it keeps 9090 for every other argument list:
no argument, one argument, `-p` alone, or a first argument other than `-p`. -/
theorem mainPort_default_and_override :
    DEFAULT_PORT = 9090 ∧
    (∀ (prog value : String) (rest : List String),
      mainPort (prog :: "-p" :: value :: rest) = atoi value) ∧
    (∀ (prog : String) (digits : List Nat) (rest : List String),
      (∀ d ∈ digits, d < 10) → decimalValue digits < 2147483648 →
      mainPort (prog :: "-p" :: decimalString digits :: rest) = (decimalValue digits : Int)) ∧
    mainPort [] = 9090 ∧
    (∀ prog : String, mainPort [prog] = 9090) ∧
    (∀ prog : String, mainPort [prog, "-p"] = 9090) ∧
    (∀ (prog arg1 : String) (rest : List String), arg1 ≠ "-p" →
      mainPort (prog :: arg1 :: rest) = 9090) := by
  have hp : ∀ (prog value : String) (rest : List String),
      mainPort (prog :: "-p" :: value :: rest) = atoi value := by
    intro prog value rest
    simp [mainPort]
  refine ⟨rfl, hp, fun prog digits rest hds hv => ?_, rfl, fun prog => rfl, fun prog => rfl,
    fun prog arg1 rest hne => ?_⟩
  · rw [hp, atoi_decimalString digits hds hv]
  · cases rest with
    | nil => rfl
    | cons arg2 rest => simp [mainPort, hne, DEFAULT_PORT]

theorem mainPort_default_and_override_witness :
    ("-q" : String) ≠ "-p" ∧
    mainPort ["SectorServer", "-q", "8080"] = 9090 ∧
    (∀ d ∈ [8, 0, 8, 0], d < 10) ∧ decimalValue [8, 0, 8, 0] < 2147483648 ∧
    decimalString [8, 0, 8, 0] = "8080" ∧ decimalValue [8, 0, 8, 0] = 8080 ∧
    mainPort ["SectorServer", "-p", decimalString [8, 0, 8, 0]]
      = (decimalValue [8, 0, 8, 0] : Int) ∧
    mainPort ["SectorServer", "-p", "8080"] = 8080 ∧
    mainPort ["SectorServer", "-p", "99999999999"] = 1215752191 ∧
    mainPort ["SectorServer", "-p", "-1"] = -1 :=
  ⟨by decide,
    mainPort_default_and_override.2.2.2.2.2.2 "SectorServer" "-q" ["8080"] (by decide),
    by decide, by decide, by decide, by decide,
    mainPort_default_and_override.2.2.1 "SectorServer" [8, 0, 8, 0] [] (by decide) (by decide),
    by decide, by decide, by decide⟩

/-! ## The read buffer, and end-of-file before seek -/

/-- C24, on the code: on a registered file, when the native read fills the whole
buffer (`status = len`) the store of the terminator at `buf[status]` falls outside the
`len` characters allocated, and `read` has no result: so for `len = 5`, `status = 5`
and for every `len = status = n`; with `status = 4` of `len = 5` it has one. -/
theorem read_terminator_past_buffer :
    mapFind sampleHandler.clientHandleMap 10
      = some { client := 100, dfsHandleMap := [(10, 200), (13, 203)] } ∧
    sampleHandler.read { id := 10 } { id := 10 } (-1) 5 false 0 5 sampleBuf = none ∧
    (∀ (n : Nat) (buf : Nat → Char),
      sampleHandler.read { id := 10 } { id := 10 } (-1) (n : Int) false 0 (n : Int) buf = none) ∧
    (sampleHandler.read { id := 10 } { id := 10 } (-1) 5 false 0 4 sampleBuf).isSome = true := by
  refine ⟨by decide, rfl, fun n buf => ?_, by decide⟩
  have h1 : ¬ ((n : Int) < 0) := by omega
  have hcs : mapFind sampleHandler.clientHandleMap 10
      = some { client := 100, dfsHandleMap := [(10, 200), (13, 203)] } := by decide
  have hf : mapFind [(10, 200), (13, 203)] 10 = some 200 := by decide
  simp [DfsServiceHandler.read, hcs, hf, h1]

/-- C25: `read` tests the native end-of-file flag before it seeks: for a registered file
whose flag is set, `read` with an explicit offset (`offset >= 0`, offset 0 included)
returns the empty payload, its only native call is the end-of-file test, and no seek
is made, whatever the seek would have returned. -/
theorem read_tests_eof_before_seek (s : DfsServiceHandler) (clientHandle : ClientHandle)
    (dfsHandle : DfsHandle) (cs : clientStruct) (f : Nat)
    (hcs : mapFind s.clientHandleMap clientHandle.id = some cs)
    (hf : mapFind cs.dfsHandleMap dfsHandle.id = some f)
    (offset len seekStatus readStatus : Int) (buf : Nat → Char) (_hoff : 0 ≤ offset) :
    ∃ out, s.read clientHandle dfsHandle offset len true seekStatus readStatus buf = some out ∧
      out.ret = .ok "" ∧ out.state = s ∧ out.calls = [NativeCall.fileEof f true] ∧
      (∀ (g : Nat) (o st : Int), NativeCall.fileSeekg g o st ∉ out.calls) ∧
      (∀ (g : Nat) (l st : Int), NativeCall.fileRead g l st ∉ out.calls) := by
  refine ⟨{ ret := .ok "", state := s, calls := [NativeCall.fileEof f true] }, ?_, rfl, rfl,
    rfl, fun g o st h => ?_, fun g l st h => ?_⟩
  · simp only [DfsServiceHandler.read, hcs, hf, if_true]
  · simp at h
  · simp at h

theorem read_tests_eof_before_seek_witness :
    mapFind sampleHandler.clientHandleMap 10
      = some { client := 100, dfsHandleMap := [(10, 200), (13, 203)] } ∧
    mapFind [(10, 200), (13, 203)] 13 = some 203 ∧ (0 : Int) ≤ 0 ∧
    ∃ out, sampleHandler.read { id := 10 } { id := 13 } 0 5 true 0 5 sampleBuf = some out ∧
      out.ret = .ok "" ∧ out.state = sampleHandler ∧
      out.calls = [NativeCall.fileEof 203 true] :=
  ⟨by decide, by decide, by decide,
    (read_tests_eof_before_seek sampleHandler { id := 10 } { id := 13 }
      { client := 100, dfsHandleMap := [(10, 200), (13, 203)] } 203 (by decide) (by decide)
      0 5 0 5 sampleBuf (by decide)).imp (fun _ h => ⟨h.1, h.2.1, h.2.2.1, h.2.2.2.1⟩)⟩

/-! ## Ownership of file handles -/

/-- C26: in a state reached from a freshly constructed handler, a file id opened under
a registered session A is not reachable through another registered session B:
`close(B, f)` returns false and `write(B, f, ..)` returns false, both without a native
call and leaving the handler untouched, so that `f` is still registered under A. -/
theorem file_reachable_only_through_owner (tv_sec : Int) (ops : List Op)
    (s : DfsServiceHandler) (log : List Event)
    (hrun : run (DfsServiceHandler.new tv_sec) ops = some (s, log))
    (sessionA sessionB : ClientHandle) (csA csB : clientStruct) (dfsHandle : DfsHandle)
    (f : Nat) (hne : sessionA.id ≠ sessionB.id)
    (hA : mapFind s.clientHandleMap sessionA.id = some csA)
    (_hB : mapFind s.clientHandleMap sessionB.id = some csB)
    (hf : mapFind csA.dfsHandleMap dfsHandle.id = some f)
    (status : Int) (buf : String) (offset len seekStatus writeStatus : Int) :
    s.close sessionB dfsHandle status = { ret := false, state := s, calls := [] } ∧
    s.write sessionB dfsHandle buf offset len seekStatus writeStatus
      = { ret := .ok false, state := s, calls := [] } ∧
    mapFind (s.close sessionB dfsHandle status).state.clientHandleMap sessionA.id = some csA ∧
    mapFind (s.write sessionB dfsHandle buf offset len seekStatus
      writeStatus).state.clientHandleMap sessionA.id = some csA := by
  have hi : Inv s := run_inv hrun (inv_new tv_sec)
  have hn : ∀ cs, mapFind s.clientHandleMap sessionB.id = some cs →
      mapFind cs.dfsHandleMap dfsHandle.id = none := by
    intro cs hcs
    cases hd : mapFind cs.dfsHandleMap dfsHandle.id with
    | none => rfl
    | some f' => exact absurd (hi.2.2 _ _ csA cs _ f f' hA hcs hf hd) hne
  have hc := close_not_found s sessionB dfsHandle status hn
  have hw := write_not_found s sessionB dfsHandle buf offset len seekStatus writeStatus hn
  refine ⟨hc, hw, ?_, ?_⟩
  · rw [hc]; exact hA
  · rw [hw]; exact hA

theorem file_reachable_only_through_owner_witness :
    run (DfsServiceHandler.new 10) sampleOps = some (sampleHandler, sampleLog) ∧
    (10 : Int) ≠ 12 ∧
    mapFind sampleHandler.clientHandleMap 10
      = some { client := 100, dfsHandleMap := [(10, 200), (13, 203)] } ∧
    mapFind sampleHandler.clientHandleMap 12
      = some { client := 102, dfsHandleMap := [(11, 201)] } ∧
    mapFind [(10, 200), (13, 203)] 13 = some 203 ∧
    sampleHandler.close { id := 12 } { id := 13 } 0
      = { ret := false, state := sampleHandler, calls := [] } :=
  ⟨rfl, by decide, by decide, by decide, by decide,
    (file_reachable_only_through_owner 10 sampleOps sampleHandler sampleLog rfl
      { id := 10 } { id := 12 } { client := 100, dfsHandleMap := [(10, 200), (13, 203)] }
      { client := 102, dfsHandleMap := [(11, 201)] } { id := 13 } 203 (by decide)
      (by decide) (by decide) (by decide) 0 "x" 0 1 0 1).1⟩

/-- C27: session ids and file ids are not disjoint: the constructor seeds both counters
with the same value, and on a freshly constructed handler the run made of one
successful `init` followed by one successful `open` on the new session returns the
same number, the seed, as session id and as file id. -/
theorem first_session_and_file_ids_coincide (tv_sec : Int) (client f : Nat)
    (filename : String) (mode : Int) :
    (DfsServiceHandler.new tv_sec).clientId = (DfsServiceHandler.new tv_sec).dfsId ∧
    ∃ s log,
      run (DfsServiceHandler.new tv_sec)
        [Op.callInit sampleTokens client 0, Op.callOpen { id := tv_sec } filename mode f 0]
        = some (s, log) ∧
      log.filterMap Event.initId = [tv_sec] ∧ log.filterMap Event.openId = [tv_sec] ∧
      log.map Event.ret
        = [Response.client { id := tv_sec }, Response.file { id := tv_sec }] := by
  refine ⟨rfl, ?_⟩
  have hfind : mapFind (mapAssign ([] : List (Int × clientStruct)) tv_sec
      { client := client, dfsHandleMap := [] }) tv_sec
      = some { client := client, dfsHandleMap := [] } := by
    simp [mapFind_mapAssign]
  have hstep₁ : step (DfsServiceHandler.new tv_sec) (Op.callInit sampleTokens client 0)
      = some { ret := Response.client { id := tv_sec },
               state := { clientHandleMap := mapAssign [] tv_sec
                            { client := client, dfsHandleMap := [] },
                          clientId := tv_sec + 1, dfsId := tv_sec },
               calls := [NativeCall.sectorInit client "host" (atoi "6000") 0] } := by
    simp [step, DfsServiceHandler.init, sampleTokens, DfsServiceHandler.new, Outcome.respond]
  refine ⟨{ clientHandleMap := mapModify
                (mapAssign [] tv_sec { client := client, dfsHandleMap := [] }) tv_sec
                (fun cs => { cs with dfsHandleMap := mapAssign cs.dfsHandleMap tv_sec f }),
            clientId := tv_sec + 1, dfsId := tv_sec + 1 },
    [{ op := Op.callInit sampleTokens client 0, ret := Response.client { id := tv_sec },
       calls := [NativeCall.sectorInit client "host" (atoi "6000") 0] },
     { op := Op.callOpen { id := tv_sec } filename mode f 0,
       ret := Response.file { id := tv_sec },
       calls := [NativeCall.fileOpen f filename mode 0] }], ?_, ?_, ?_, ?_⟩
  · have hstep₂ : step { clientHandleMap := mapAssign [] tv_sec
                            { client := client, dfsHandleMap := [] },
                          clientId := tv_sec + 1, dfsId := tv_sec }
        (Op.callOpen { id := tv_sec } filename mode f 0)
        = some { ret := Response.file { id := tv_sec },
                 state := { clientHandleMap := mapModify
                              (mapAssign [] tv_sec { client := client, dfsHandleMap := [] })
                              tv_sec
                              (fun cs => { cs with
                                dfsHandleMap := mapAssign cs.dfsHandleMap tv_sec f }),
                            clientId := tv_sec + 1, dfsId := tv_sec + 1 },
                 calls := [NativeCall.fileOpen f filename mode 0] } := by
      simp [step, DfsServiceHandler.open, hfind, Outcome.respond]
    simp only [run, hstep₁, hstep₂]
  · simp [Event.initId, Event.openId]
  · simp [Event.initId, Event.openId]
  · simp

/-! ## Calls that leave the registry alone -/

/-- C28: `login`, `logout`, `listFiles`, `stat`, `mkdir`, `move`, `remove`, `read`,
`write`, `copyToLocalFile`, `copyFromLocalFile` and `closeDfs` never change the
registry: whether the call returns a value, a failure sentinel or raises, the handler
afterwards (session map, file maps, both counters) is the handler before. -/
theorem read_only_methods_keep_registry (s : DfsServiceHandler) (clientHandle : ClientHandle)
    (dfsHandle : DfsHandle) :
    (∀ user password st, (s.login clientHandle user password st).state = s) ∧
    (∀ st, (s.logout clientHandle st).state = s) ∧
    (∀ r path st filelist, (s.listFiles r clientHandle path st filelist).state = s) ∧
    (∀ r path st attr, (s.stat r clientHandle path st attr).state = s) ∧
    (∀ path st, (s.mkdir clientHandle path st).state = s) ∧
    (∀ oldpath newpath st, (s.move clientHandle oldpath newpath st).state = s) ∧
    (∀ path recursive st, (s.remove clientHandle path recursive st).state = s) ∧
    (∀ offset len eof seekStatus readStatus buf out,
      s.read clientHandle dfsHandle offset len eof seekStatus readStatus buf = some out →
      out.state = s) ∧
    (∀ buf offset len seekStatus writeStatus,
      (s.write clientHandle dfsHandle buf offset len seekStatus writeStatus).state = s) ∧
    (∀ READ src dest f st op dl cl,
      (s.copyToLocalFile READ src dest f st op dl cl).state = s) ∧
    (∀ WRITE src dest f op up cl,
      (s.copyFromLocalFile WRITE src dest f op up cl).state = s) ∧
    s.closeDfs.state = s := by
  refine ⟨?_, ?_, ?_, ?_, ?_, ?_, ?_, ?_, ?_, ?_, ?_, rfl⟩
  · intro user password st
    unfold DfsServiceHandler.login
    repeat' split
    all_goals rfl
  · intro st
    unfold DfsServiceHandler.logout
    repeat' split
    all_goals rfl
  · intro r path st filelist
    unfold DfsServiceHandler.listFiles
    repeat' split
    all_goals rfl
  · intro r path st attr
    unfold DfsServiceHandler.stat
    repeat' split
    all_goals rfl
  · intro path st
    unfold DfsServiceHandler.mkdir
    repeat' split
    all_goals rfl
  · intro oldpath newpath st
    unfold DfsServiceHandler.move
    repeat' split
    all_goals rfl
  · intro path recursive st
    unfold DfsServiceHandler.remove
    repeat' split
    all_goals rfl
  · intro offset len eof seekStatus readStatus buf out h
    unfold DfsServiceHandler.read at h
    repeat' split at h
    all_goals first
      | cases h
        rfl
      | cases h
  · intro buf offset len seekStatus writeStatus
    unfold DfsServiceHandler.write
    repeat' split
    all_goals rfl
  · intro READ src dest f st op dl cl
    unfold DfsServiceHandler.copyToLocalFile
    repeat' split
    all_goals rfl
  · intro WRITE src dest f op up cl
    unfold DfsServiceHandler.copyFromLocalFile
    repeat' split
    all_goals rfl

theorem read_only_methods_keep_registry_witness :
    readPayload (sampleHandler.read { id := 10 } { id := 10 } (-1) 4 false 0 3 sampleBuf)
      = some "a" ∧
    ({ ret := .ok "a", state := sampleHandler,
       calls := [NativeCall.fileEof 200 false, NativeCall.fileRead 200 4 3] } :
      Outcome (Except DfsServiceIOException String)).state = sampleHandler :=
  ⟨by decide,
    (read_only_methods_keep_registry sampleHandler { id := 10 } { id := 10 }).2.2.2.2.2.2.2.1
      (-1) 4 false 0 3 sampleBuf
      { ret := .ok "a", state := sampleHandler,
        calls := [NativeCall.fileEof 200 false, NativeCall.fileRead 200 4 3] } (by rfl)⟩

/-- C29: the result of `closeClient` on a registered session is determined by the native
client close alone: it is true exactly when that status is non-negative, whatever
statuses the closes of the session's files return. -/
theorem closeClient_result_ignores_file_closes (s : DfsServiceHandler)
    (clientHandle : ClientHandle) (cs : clientStruct)
    (hcs : mapFind s.clientHandleMap clientHandle.id = some cs) (status : Int)
    (fileStatus fileStatus' : Int → Int) :
    ((s.closeClient clientHandle status fileStatus).ret = true ↔ 0 ≤ status) ∧
    (s.closeClient clientHandle status fileStatus).ret
      = (s.closeClient clientHandle status fileStatus').ret := by
  by_cases hst : status < 0
  · have hn : ¬ 0 ≤ status := by omega
    simp [DfsServiceHandler.closeClient, hcs, hst, hn]
  · have hn : 0 ≤ status := by omega
    simp [DfsServiceHandler.closeClient, hcs, hst, hn]

theorem closeClient_result_ignores_file_closes_witness :
    mapFind sampleHandler.clientHandleMap 10
      = some { client := 100, dfsHandleMap := [(10, 200), (13, 203)] } ∧
    ((sampleHandler.closeClient { id := 10 } 0 (fun _ => -1)).ret = true ↔ (0 : Int) ≤ 0) ∧
    (sampleHandler.closeClient { id := 10 } 0 (fun _ => -1)).calls
      = [NativeCall.sectorClose 100 0, NativeCall.fileClose 200 (-1),
         NativeCall.fileClose 203 (-1)] :=
  ⟨by decide,
    (closeClient_result_ignores_file_closes sampleHandler { id := 10 }
      { client := 100, dfsHandleMap := [(10, 200), (13, 203)] } (by decide) 0
      (fun _ => -1) (fun _ => 0)).1,
    by decide⟩

/-! ## The mutex -/

theorem foldl_apply_natives {α : Type} (s : DfsServiceHandler) (l : List α)
    (g : α → NativeCall) :
    (l.map (fun e => Action.native (g e))).foldl Action.apply s = s := by
  induction l with
  | nil => rfl
  | cons c cs ih => simpa [List.foldl, Action.apply] using ih

theorem filterMap_nativeCall_natives {α : Type} (l : List α) (g : α → NativeCall) :
    (l.map (fun e => Action.native (g e))).filterMap Action.nativeCall = l.map g := by
  induction l with
  | nil => rfl
  | cons c cs ih => simp [List.filterMap_cons, Action.nativeCall, ih]

theorem guarded_natives {α : Type} (held : Bool) (l : List α) (g : α → NativeCall)
    (rest : List Action) :
    guarded held (l.map (fun e => Action.native (g e)) ++ rest) = guarded held rest := by
  induction l with
  | nil => rfl
  | cons c cs ih => simp [guarded, Action.mutates, ih]

theorem actions_match_methods (s : DfsServiceHandler) (clientHandle : ClientHandle)
    (dfsHandle : DfsHandle) (tokens : List String) (client : Nat) (status : Int)
    (fileStatus : Int → Int) (filename : String) (mode : Int) (f : Nat) :
    ((initActions s tokens client status).map (fun acts => acts.foldl Action.apply s)
        = (s.init tokens client status).map (fun out => out.state)) ∧
    ((initActions s tokens client status).map (fun acts => acts.filterMap Action.nativeCall)
        = (s.init tokens client status).map (fun out => out.calls)) ∧
    ((closeClientActions s clientHandle status fileStatus).foldl Action.apply s
        = (s.closeClient clientHandle status fileStatus).state) ∧
    ((closeClientActions s clientHandle status fileStatus).filterMap Action.nativeCall
        = (s.closeClient clientHandle status fileStatus).calls) ∧
    ((openActions s clientHandle filename mode f status).foldl Action.apply s
        = (s.open clientHandle filename mode f status).state) ∧
    ((openActions s clientHandle filename mode f status).filterMap Action.nativeCall
        = (s.open clientHandle filename mode f status).calls) ∧
    ((closeActions s clientHandle dfsHandle status).foldl Action.apply s
        = (s.close clientHandle dfsHandle status).state) ∧
    ((closeActions s clientHandle dfsHandle status).filterMap Action.nativeCall
        = (s.close clientHandle dfsHandle status).calls) := by
  refine ⟨?_, ?_, ?_, ?_, ?_, ?_, ?_, ?_⟩
  · unfold initActions DfsServiceHandler.init
    split
    · by_cases hst : status < 0 <;> simp [hst, List.foldl, Action.apply]
    · rfl
  · unfold initActions DfsServiceHandler.init
    split
    · by_cases hst : status < 0 <;> simp [hst, List.filterMap_cons, Action.nativeCall]
    · rfl
  · unfold closeClientActions DfsServiceHandler.closeClient
    cases hcs : mapFind s.clientHandleMap clientHandle.id with
    | none => rfl
    | some cs =>
      have h := foldl_apply_natives s cs.dfsHandleMap
        (fun e => NativeCall.fileClose e.2 (fileStatus e.1))
      by_cases hst : status < 0 <;>
        simp [hst, List.foldl, Action.apply, List.foldl_append, h]
  · unfold closeClientActions DfsServiceHandler.closeClient
    cases hcs : mapFind s.clientHandleMap clientHandle.id with
    | none => rfl
    | some cs =>
      have h := filterMap_nativeCall_natives cs.dfsHandleMap
        (fun e => NativeCall.fileClose e.2 (fileStatus e.1))
      by_cases hst : status < 0 <;>
        simp [hst, List.filterMap_cons, Action.nativeCall, List.filterMap_append, h]
  · unfold openActions DfsServiceHandler.open
    cases hcs : mapFind s.clientHandleMap clientHandle.id with
    | none => rfl
    | some cs => by_cases hst : status < 0 <;> simp [hst, List.foldl, Action.apply]
  · unfold openActions DfsServiceHandler.open
    cases hcs : mapFind s.clientHandleMap clientHandle.id with
    | none => rfl
    | some cs =>
      by_cases hst : status < 0 <;> simp [hst, List.filterMap_cons, Action.nativeCall]
  · cases hcs : mapFind s.clientHandleMap clientHandle.id with
    | none => simp [closeActions, DfsServiceHandler.close, hcs]
    | some cs =>
      cases hf : mapFind cs.dfsHandleMap dfsHandle.id with
      | none => simp [closeActions, DfsServiceHandler.close, hcs, hf]
      | some f' =>
        by_cases hst : status < 0 <;>
          simp [closeActions, DfsServiceHandler.close, hcs, hf, hst, List.foldl, Action.apply]
  · cases hcs : mapFind s.clientHandleMap clientHandle.id with
    | none => simp [closeActions, DfsServiceHandler.close, hcs]
    | some cs =>
      cases hf : mapFind cs.dfsHandleMap dfsHandle.id with
      | none => simp [closeActions, DfsServiceHandler.close, hcs, hf]
      | some f' =>
        by_cases hst : status < 0 <;>
          simp [closeActions, DfsServiceHandler.close, hcs, hf, hst, List.filterMap_cons,
            Action.nativeCall]

/-- C23, on the code: the successful `open` on session 10 of `sampleHandler` inserts
into the session's file map and increments the file counter, and the `close` of file
13 erases from the file map, without the mutex being taken at all; the sibling `init`
makes its insertion and its counter increment, and `closeClient` its erasure, between
taking and releasing the mutex. -/
theorem open_and_close_update_unguarded :
    openActions sampleHandler { id := 10 } "e" 1 204 0
      = [Action.native (NativeCall.fileOpen 204 "e" 1 0), Action.assignFile 10 14 204,
         Action.incrementDfsId] ∧
    guarded false (openActions sampleHandler { id := 10 } "e" 1 204 0) = false ∧
    closeActions sampleHandler { id := 10 } { id := 13 } 0
      = [Action.native (NativeCall.fileClose 203 0), Action.eraseFile 10 13] ∧
    guarded false (closeActions sampleHandler { id := 10 } { id := 13 } 0) = false ∧
    initActions sampleHandler sampleTokens 103 0
      = some [Action.lock, Action.native (NativeCall.sectorInit 103 "host" 6000 0),
              Action.assignSession 13 { client := 103, dfsHandleMap := [] },
              Action.incrementClientId, Action.unlock] ∧
    (initActions sampleHandler sampleTokens 103 0).map (guarded false) = some true ∧
    closeClientActions sampleHandler { id := 12 } 0 (fun _ => 0)
      = [Action.native (NativeCall.sectorClose 102 0),
         Action.native (NativeCall.fileClose 201 0),
         Action.lock, Action.eraseSession 12, Action.unlock] ∧
    guarded false (closeClientActions sampleHandler { id := 12 } 0 (fun _ => 0)) = true := by
  decide

/-- For every handler and arguments: in `init` and `closeClient` every insertion into
or erasure from the session map, and the session counter increment, happens while the
mutex is held; `open` and `close` never take the mutex, so whenever they reach the
native file their updates (the insertion into or erasure from a session's file map,
the file counter increment) happen without it. -/
theorem mutex_covers_session_map_only (s : DfsServiceHandler) (clientHandle : ClientHandle)
    (dfsHandle : DfsHandle) (tokens : List String) (client : Nat) (status : Int)
    (fileStatus : Int → Int) (filename : String) (mode : Int) (f : Nat) :
    (∀ acts, initActions s tokens client status = some acts → guarded false acts = true) ∧
    guarded false (closeClientActions s clientHandle status fileStatus) = true ∧
    Action.lock ∉ openActions s clientHandle filename mode f status ∧
    Action.lock ∉ closeActions s clientHandle dfsHandle status ∧
    (∀ cs, mapFind s.clientHandleMap clientHandle.id = some cs →
      guarded false (openActions s clientHandle filename mode f status) = false) ∧
    (∀ cs g, mapFind s.clientHandleMap clientHandle.id = some cs →
      mapFind cs.dfsHandleMap dfsHandle.id = some g →
      guarded false (closeActions s clientHandle dfsHandle status) = false) := by
  refine ⟨fun acts h => ?_, ?_, ?_, ?_, fun cs hcs => ?_, fun cs g hcs hg => ?_⟩
  · unfold initActions at h
    split at h
    · cases h
      by_cases hst : status < 0 <;> simp [hst, guarded, Action.mutates]
    · cases h
  · unfold closeClientActions
    cases hcs : mapFind s.clientHandleMap clientHandle.id with
    | none => rfl
    | some cs =>
      have h := guarded_natives false cs.dfsHandleMap
        (fun e => NativeCall.fileClose e.2 (fileStatus e.1))
        [Action.lock, Action.eraseSession clientHandle.id, Action.unlock]
      simp only [guarded, Action.mutates, Bool.not_false, Bool.true_or, Bool.true_and]
      simpa [guarded, Action.mutates] using h
  · unfold openActions
    cases hcs : mapFind s.clientHandleMap clientHandle.id with
    | none => simp
    | some cs => by_cases hst : status < 0 <;> simp [hst]
  · cases hcs : mapFind s.clientHandleMap clientHandle.id with
    | none => simp [closeActions, hcs]
    | some cs =>
      cases hf : mapFind cs.dfsHandleMap dfsHandle.id with
      | none => simp [closeActions, hcs, hf]
      | some g => simp [closeActions, hcs, hf]
  · unfold openActions
    by_cases hst : status < 0 <;> simp [hcs, hst, guarded, Action.mutates]
  · unfold closeActions
    simp [hcs, hg, guarded, Action.mutates]

theorem mutex_covers_session_map_only_witness :
    initActions sampleHandler sampleTokens 103 0
      = some [Action.lock, Action.native (NativeCall.sectorInit 103 "host" 6000 0),
              Action.assignSession 13 { client := 103, dfsHandleMap := [] },
              Action.incrementClientId, Action.unlock] ∧
    guarded false [Action.lock, Action.native (NativeCall.sectorInit 103 "host" 6000 0),
              Action.assignSession 13 { client := 103, dfsHandleMap := [] },
              Action.incrementClientId, Action.unlock] = true ∧
    mapFind sampleHandler.clientHandleMap 10
      = some { client := 100, dfsHandleMap := [(10, 200), (13, 203)] } ∧
    guarded false (openActions sampleHandler { id := 10 } "e" 1 204 (-2)) = false :=
  ⟨by decide,
    (mutex_covers_session_map_only sampleHandler { id := 10 } { id := 13 } sampleTokens 103 0
      (fun _ => 0) "e" 1 204).1 _ (by decide),
    by decide,
    (mutex_covers_session_map_only sampleHandler { id := 10 } { id := 13 } sampleTokens 103
      (-2) (fun _ => 0) "e" 1 204).2.2.2.2.1
      { client := 100, dfsHandleMap := [(10, 200), (13, 203)] } (by decide)⟩

/-! ## The trunk server: files survive `closeClient` -/

/-- C30: in the trunk server `closeClient` leaves the file-handle map unchanged and
closes no file: its only native call, if any, is the client's close; every file id
registered before is registered afterwards with the same native file, and `close`,
`write` and `read` on it still reach that native file (each makes at least one native
call, all of them on that file). -/
theorem trunk_closeClient_keeps_files (s : Trunk.DfsServiceHandler)
    (clientHandle : ClientHandle) (status : Int) (dfsHandle : DfsHandle) (f : Nat)
    (hf : mapFind s.dfsHandleMap dfsHandle.id = some f) :
    (s.closeClient clientHandle status).state.dfsHandleMap = s.dfsHandleMap ∧
    (∀ c ∈ (s.closeClient clientHandle status).calls, c.file = none) ∧
    mapFind (s.closeClient clientHandle status).state.dfsHandleMap dfsHandle.id = some f ∧
    (∀ st : Int,
      ((s.closeClient clientHandle status).state.close dfsHandle st).calls
        = [NativeCall.fileClose f st]) ∧
    (∀ (buf : String) (offset len seekStatus writeStatus : Int),
      ((s.closeClient clientHandle status).state.write dfsHandle buf offset len seekStatus
          writeStatus).calls ≠ [] ∧
      ∀ c ∈ ((s.closeClient clientHandle status).state.write dfsHandle buf offset len
          seekStatus writeStatus).calls, c.file = some f) ∧
    (∀ (offset len seekStatus readStatus : Int) (buf : Nat → Char),
      (s.closeClient clientHandle status).state.read dfsHandle offset len true seekStatus
          readStatus buf
        = some { ret := .ok "", state := (s.closeClient clientHandle status).state,
                 calls := [NativeCall.fileEof f true] }) ∧
    (∀ (offset len : Int) (eof : Bool) (seekStatus readStatus : Int) (buf : Nat → Char)
        (out : Trunk.Outcome (Except DfsServiceIOException String)),
      (s.closeClient clientHandle status).state.read dfsHandle offset len eof seekStatus
          readStatus buf = some out →
      out.calls ≠ [] ∧ ∀ c ∈ out.calls, c.file = some f) := by
  have hmap : (s.closeClient clientHandle status).state.dfsHandleMap = s.dfsHandleMap := by
    unfold Trunk.DfsServiceHandler.closeClient
    repeat' split
    all_goals rfl
  have hf' : mapFind (s.closeClient clientHandle status).state.dfsHandleMap dfsHandle.id
      = some f := by rw [hmap]; exact hf
  refine ⟨hmap, ?_, hf', ?_, ?_, ?_, ?_⟩
  · intro c hc
    unfold Trunk.DfsServiceHandler.closeClient at hc
    cases hcl : mapFind s.clientHandleMap clientHandle.id with
    | none => simp [hcl] at hc
    | some client =>
      by_cases hst : status < 0 <;> simp [hcl, hst] at hc <;> subst hc <;> rfl
  · intro st
    simp only [Trunk.DfsServiceHandler.close, hf']
    split <;> rfl
  · intro buf offset len seekStatus writeStatus
    simp only [Trunk.DfsServiceHandler.write, hf']
    by_cases ho : 0 ≤ offset <;> by_cases hs : seekStatus < 0 <;>
      by_cases hw : writeStatus < 0 <;> simp [ho, hs, hw, NativeCall.file]
  · intro offset len seekStatus readStatus buf
    simp only [Trunk.DfsServiceHandler.read, hf', if_true]
  · intro offset len eof seekStatus readStatus buf out h
    simp only [Trunk.DfsServiceHandler.read, hf'] at h
    by_cases he : eof = true
    · simp only [he, if_true, Option.some.injEq] at h
      subst h
      simp [NativeCall.file]
    · by_cases ho : 0 ≤ offset <;> by_cases hs : seekStatus < 0 <;>
        by_cases hl : len < 0 <;> by_cases hr : readStatus < 0 <;>
        by_cases hfit : readStatus < len <;>
        simp [he, ho, hs, hl, hr, hfit] at h <;> subst h <;> simp [NativeCall.file]

theorem trunk_closeClient_keeps_files_witness :
    mapFind Trunk.sampleHandler.dfsHandleMap 11 = some 201 ∧
    (Trunk.sampleHandler.closeClient { id := 10 } 0).calls = [NativeCall.sectorClose 100 0] ∧
    (Trunk.sampleHandler.closeClient { id := 10 } 0).state.clientHandleMap = [] ∧
    (Trunk.sampleHandler.closeClient { id := 10 } 0).state.dfsHandleMap
      = [(10, 200), (11, 201)] ∧
    (∀ st : Int,
      ((Trunk.sampleHandler.closeClient { id := 10 } 0).state.close { id := 11 } st).calls
        = [NativeCall.fileClose 201 st]) :=
  ⟨by decide, by decide, by decide, by decide,
    (trunk_closeClient_keeps_files Trunk.sampleHandler { id := 10 } 0 { id := 11 } 201
      (by decide)).2.2.2.1⟩

end SectorServer
